import Mathlib

/-!
# stock-monitor web front end: authentication and session lifecycle

A shallow embedding of `web/main.go`.

* The SQLite database is a record of row lists, one per table of `migrate`.  A statement
  fails exactly when it violates a constraint of the schema (`PRIMARY KEY`, `UNIQUE`).
* Everything a handler does outside the process memory is appended, in program order, to an
  event log: statements sent to the database, calls into `bcrypt`, writes to the
  `http.ResponseWriter`, template executions and `log.Println`.
* What the environment delivers during one run (clock readings, random bytes, environment
  variables) is an explicit `Env` argument.
* Go strings are Lean strings; Go's `len` on a string is its number of UTF-8 bytes,
  `String.utf8ByteSize`.
-/

namespace StockMonitor

/-! ## Tables -/

/-- A row of `users`. -/
structure UserRow where
  id : Int
  username : String
  pass_hash : String
  created_at : Int
deriving DecidableEq, Repr

/-- A row of `sessions`. -/
structure SessionRow where
  token : String
  user_id : Int
  expires_at : Int
deriving DecidableEq, Repr

/-- A row of `watches`. -/
structure WatchRow where
  id : Int
  url : String
  model : String
  count_regex : String
  instock_regex : String
  oos_regex : String
  window : Int
  enabled : Int
  last_status : Option String
  last_available : Option Int
  last_checked : Option Int
  last_notified : Option Int
deriving DecidableEq, Repr

/-- The database: the four tables of `migrate` and the two `AUTOINCREMENT` counters that
SQLite keeps in `sqlite_sequence`. -/
structure DB where
  users : List UserRow
  userSeq : Int
  sessions : List SessionRow
  settings : Option (String × String)
  watches : List WatchRow
  watchSeq : Int
deriving DecidableEq, Repr

/-- Statements sent through `db.Exec`. -/
inductive Stmt where
  | insertUser (username pass_hash : String) (created_at : Int)
  | insertSession (token : String) (user_id expires_at : Int)
  | deleteSession (token : String)
  | insertWatch (url model count_regex instock_regex oos_regex : String) (window : Int)
deriving DecidableEq, Repr

/-- Queries sent through `db.QueryRow`. -/
inductive Query where
  | countUsers
  | selectUser (username : String)
  | selectSession (token : String)
deriving DecidableEq, Repr

/-! ## Requests, responses and the event log -/

/-- The `SameSite` attribute of `http.Cookie`. -/
inductive SameSite where
  | unset
  | lax
  | strict
  | none
deriving DecidableEq, Repr

/-- The fields of `http.Cookie` that the program sets. -/
structure Cookie where
  name : String
  value : String
  path : String
  maxAge : Int
  httpOnly : Bool
  sameSite : SameSite
deriving DecidableEq, Repr

/-- A value handed to a template. -/
inductive TplVal where
  | str (s : String)
  | bool (b : Bool)
deriving DecidableEq, Repr

/-- One call that leaves the handler. -/
inductive Event where
  | exec (s : Stmt)
  | query (q : Query)
  | bcryptGenerate (password : String)
  | bcryptCompare (hash password : String)
  | setCookie (c : Cookie)
  | redirect (url : String) (code : Nat)
  | httpError (msg : String) (code : Nat)
  | executeTemplate (name : String) (data : List (String × TplVal))
  | logPrintln (msg : String)
deriving DecidableEq, Repr

/-- An incoming request as the handlers read it: the method, the cookies of the `Cookie`
header in order, and the form values after `ParseForm`. -/
structure Request where
  method : String
  cookies : List (String × String)
  form : List (String × String)
deriving DecidableEq, Repr

/-- The function `r.Cookie(name)`: the value of the first cookie of that name, `none` for
`http.ErrNoCookie`. -/
def Request.Cookie (r : Request) (name : String) : Option String :=
  (r.cookies.find? (fun c => decide (c.1 = name))).map (fun c => c.2)

/-- The function `r.FormValue(key)`: the first value for the key, the empty string when
there is none. -/
def Request.FormValue (r : Request) (key : String) : String :=
  ((r.form.find? (fun c => decide (c.1 = key))).map (fun c => c.2)).getD ""

/-- The state a handler acts on: the database and the log of its outward calls. -/
structure World where
  db : DB
  log : List Event
deriving DecidableEq, Repr

/-- What the environment delivers during one run. -/
structure Env where
  /-- The function `os.Getenv`. -/
  getenv : String → String
  /-- The successive readings of `time.Now().Unix()`, in seconds. -/
  clock : Nat → Int
  /-- The bytes `crypto/rand.Read` delivers to `randHex`. -/
  rnd : Nat → Nat
  /-- The salt `bcrypt.GenerateFromPassword` draws. -/
  salt : Nat

/-- The environment after one clock reading has been consumed. -/
def Env.tick (env : Env) : Env :=
  { env with clock := fun k => env.clock (k + 1) }

/-- The two functions used from `golang.org/x/crypto/bcrypt`, at `bcrypt.DefaultCost`.
`generate password salt` is `none` when `GenerateFromPassword` returns an error;
`compare hash password` is `true` when `CompareHashAndPassword` returns `nil`. -/
structure Bcrypt where
  generate : String → Nat → Option String
  compare : String → String → Bool

/-- The fields of `App` that the handlers read (`db` is in the `World`). -/
structure App where
  secret : String
  signup : Bool
deriving DecidableEq, Repr

/-- The type `http.HandlerFunc`. -/
abbrev HandlerFunc := Env → World → Request → World

/-! ## The database engine -/

/-- The row found by `SELECT id, pass_hash FROM users WHERE username=?`. -/
def DB.selectUser (db : DB) (username : String) : Option UserRow :=
  db.users.find? (fun r => decide (r.username = username))

/-- The row found by `SELECT user_id, expires_at FROM sessions WHERE token=?`. -/
def DB.selectSession (db : DB) (token : String) : Option SessionRow :=
  db.sessions.find? (fun r => decide (r.token = token))

/-- The value of `SELECT COUNT(*) FROM users`. -/
def DB.countUsers (db : DB) : Int :=
  (db.users.length : Int)

/-- The id an `AUTOINCREMENT` column gives the next row: one more than the largest id the
table has ever held. -/
def nextId (seq : Int) (ids : List Int) : Int :=
  ids.foldl max seq + 1

/-- Run one statement: the new database and `LastInsertId`, or the constraint error. -/
def DB.exec (db : DB) : Stmt → Except String (DB × Int)
  | .insertUser username pass_hash created_at =>
    if (db.selectUser username).isSome then
      .error "UNIQUE constraint failed: users.username"
    else
      let id := nextId db.userSeq (db.users.map (fun r => r.id))
      .ok ({ db with
              users := db.users ++ [{ id := id, username := username,
                                      pass_hash := pass_hash, created_at := created_at }],
              userSeq := id }, id)
  | .insertSession token user_id expires_at =>
    if (db.selectSession token).isSome then
      .error "UNIQUE constraint failed: sessions.token"
    else
      .ok ({ db with
              sessions := db.sessions ++ [{ token := token, user_id := user_id,
                                            expires_at := expires_at }] },
           (db.sessions.length : Int) + 1)
  | .deleteSession token =>
    .ok ({ db with sessions := db.sessions.filter (fun r => !decide (r.token = token)) }, 0)
  | .insertWatch url model count_regex instock_regex oos_regex window =>
    let id := nextId db.watchSeq (db.watches.map (fun r => r.id))
    .ok ({ db with
            watches := db.watches ++ [{ id := id, url := url, model := model,
                                        count_regex := count_regex,
                                        instock_regex := instock_regex,
                                        oos_regex := oos_regex, window := window,
                                        enabled := 1, last_status := none,
                                        last_available := none, last_checked := none,
                                        last_notified := none }],
            watchSeq := id }, id)

/-- Append one event to the log. -/
def World.emit (w : World) (e : Event) : World :=
  { w with log := w.log ++ [e] }

/-- The call `a.db.Exec(stmt)`: the statement is logged; on success the database is
replaced and `LastInsertId` returned, on failure the database is untouched. -/
def World.Exec (w : World) (s : Stmt) : World × Except String Int :=
  match w.db.exec s with
  | .ok (db1, id) => ({ db := db1, log := w.log ++ [.exec s] }, .ok id)
  | .error e => (w.emit (.exec s), .error e)

/-- The call `a.db.QueryRow(q)`: the query is logged, the database is not changed. -/
def World.QueryRow (w : World) (q : Query) : World :=
  w.emit (.query q)

/-- The effect of `migrate` on a database whose tables exist: every `CREATE TABLE IF NOT
EXISTS` is a no-op and `INSERT OR IGNORE INTO settings` adds the singleton row when it is
missing. -/
def migrate (db : DB) : DB :=
  match db.settings with
  | some _ => db
  | none => { db with settings := some ("", "") }

/-- The database `migrate` produces on a fresh file. -/
def DB.fresh : DB :=
  migrate { users := [], userSeq := 0, sessions := [], settings := none,
            watches := [], watchSeq := 0 }

/-! ## Library functions -/

/-- The table `hextable` of `encoding/hex`. -/
def hextable : List Char :=
  ['0', '1', '2', '3', '4', '5', '6', '7', '8', '9', 'a', 'b', 'c', 'd', 'e', 'f']

/-- The function `hex.EncodeToString` on a list of bytes. -/
def EncodeToString (src : List Nat) : String :=
  String.mk (src.flatMap (fun v => [hextable.getD (v / 16) '0', hextable.getD (v % 16) '0']))

/-- The function `randHex`: `n` random bytes, hex-encoded. -/
def randHex (rnd : Nat → Nat) (n : Nat) : String :=
  EncodeToString ((List.range n).map (fun i => rnd i % 256))

/-- The function `getenv` of the program: the value of the variable, or the default when
it is empty. -/
def getenv (env : Env) (k d : String) : String :=
  if env.getenv k = "" then d else env.getenv k

/-- The function `unicode.IsSpace`. -/
def IsSpace (c : Char) : Bool :=
  let n := c.toNat
  (9 ≤ n && n ≤ 13) || n = 32 || n = 0x85 || n = 0xA0 || n = 0x1680 ||
    (0x2000 ≤ n && n ≤ 0x200A) || n = 0x2028 || n = 0x2029 || n = 0x202F ||
    n = 0x205F || n = 0x3000

/-- The function `strings.TrimSpace`. -/
def TrimSpace (s : String) : String :=
  String.mk ((s.data.dropWhile IsSpace).reverse.dropWhile IsSpace).reverse

/-- The two errors of `strconv`. -/
inductive NumError where
  | ErrSyntax
  | ErrRange
deriving DecidableEq, Repr

/-- The constant `maxUint64` of `strconv`. -/
def maxUint64 : Nat :=
  2 ^ 64 - 1

/-- The conversion of an integer to `int64`: its value modulo `2 ^ 64`, in the signed
range. -/
def wrapInt64 (x : Int) : Int :=
  (x + 2 ^ 63) % 2 ^ 64 - 2 ^ 63

/-- The digit loop of `strconv.ParseUint` for base 10 and 64 bits, where `n` is the
`uint64` read so far.  Each character is first checked to be a digit (`ErrSyntax` with
value 0 if not); then, if appending it overflows `uint64`, the loop returns `maxUint64`
and `ErrRange` at once, without reading the characters after it. -/
def parseUintLoop (n : Nat) : List Char → Nat × Option NumError
  | [] => (n, none)
  | c :: cs =>
    if '0' ≤ c ∧ c ≤ '9' then
      if maxUint64 / 10 + 1 ≤ n then (maxUint64, some .ErrRange)
      else
        let n10 := n * 10 % 2 ^ 64
        let n1 := (n10 + (c.toNat - '0'.toNat)) % 2 ^ 64
        if n1 < n10 ∨ maxUint64 < n1 then (maxUint64, some .ErrRange)
        else parseUintLoop n1 cs
    else (0, some .ErrSyntax)

/-- The function `strconv.ParseUint(s, 10, 0)` where `int` has 64 bits. -/
def ParseUint (s : List Char) : Nat × Option NumError :=
  if s = [] then (0, some .ErrSyntax) else parseUintLoop 0 s

/-- The function `strconv.ParseInt(s, 10, 0)` where `int` has 64 bits: the sign is picked
off, the rest goes through `ParseUint`; a syntax error gives `(0, ErrSyntax)`, a value
outside the range of `int64` (also when `ParseUint` reported `ErrRange`) gives the
nearest bound and `ErrRange`. -/
def ParseInt (s : List Char) : Int × Option NumError :=
  match s with
  | [] => (0, some .ErrSyntax)
  | c :: rest =>
    let neg := decide (c = '-')
    let r := ParseUint (if c = '+' ∨ c = '-' then rest else c :: rest)
    if r.2 = some .ErrSyntax then (0, some .ErrSyntax)
    else if !neg && decide (2 ^ 63 ≤ r.1) then ((2 : Int) ^ 63 - 1, some .ErrRange)
    else if neg && decide (2 ^ 63 < r.1) then (-(2 : Int) ^ 63, some .ErrRange)
    else (if neg then wrapInt64 (-(wrapInt64 (r.1 : Int))) else wrapInt64 (r.1 : Int), none)

/-- The digit loop of the fast path of `strconv.Atoi`, where `n` is the `int` read so
far; `none` when a character is not a digit.  The path is taken for fewer than 19 bytes,
so `n` stays below `10 ^ 18` and does not overflow. -/
def atoiFastLoop (n : Int) : List Char → Option Int
  | [] => some n
  | c :: cs =>
    if '0' ≤ c ∧ c ≤ '9' then atoiFastLoop (n * 10 + ((c.toNat - '0'.toNat : Nat) : Int)) cs
    else none

/-- The function `strconv.Atoi` where `int` has 64 bits.  A string of 1 to 18 bytes takes
the fast path: an optional sign and digits only, anything else is `(0, ErrSyntax)`.  Every
other string goes through `ParseInt(s, 10, 0)`, whose value and error are returned as
they are. -/
def Atoi (s : String) : Int × Option NumError :=
  if 0 < s.utf8ByteSize ∧ s.utf8ByteSize < 19 then
    match s.data with
    | [] => (0, some .ErrSyntax)
    | c :: rest =>
      let digits := if c = '-' ∨ c = '+' then rest else c :: rest
      if digits = [] then (0, some .ErrSyntax)
      else
        match atoiFastLoop 0 digits with
        | none => (0, some .ErrSyntax)
        | some n => (if c = '-' then -n else n, none)
  else ParseInt s.data

/-! ## The program -/

/-- The cookie `setSession` sends. -/
def sessCookie (token : String) : Cookie :=
  { name := "sess", value := token, path := "/", maxAge := 0, httpOnly := true,
    sameSite := .lax }

/-- The cookie `clearSession` sends. -/
def clearedCookie : Cookie :=
  { name := "sess", value := "", path := "/", maxAge := -1, httpOnly := false,
    sameSite := .unset }

/-- The method `App.bootstrapAdmin`. -/
def bootstrapAdmin (bc : Bcrypt) (env : Env) (w : World) : World :=
  let adminUser := env.getenv "ADMIN_USER"
  let adminPass := env.getenv "ADMIN_PASS"
  if adminUser = "" ∨ adminPass = "" then w
  else
    let w1 := w.QueryRow .countUsers
    let cnt := w1.db.countUsers
    if cnt > 0 then w1
    else
      let w2 := w1.emit (.bcryptGenerate adminPass)
      let hash := (bc.generate adminPass env.salt).getD ""
      match w2.Exec (.insertUser adminUser hash (env.clock 0)) with
      | (w3, .error err) => w3.emit (.logPrintln ("bootstrap admin failed: " ++ err))
      | (w3, .ok _) => w3.emit (.logPrintln ("bootstrap admin created: " ++ adminUser))

/-- The method `App.setSession`, called when the clock reads `now`: the world it leaves
and the error it returns (`none` for `nil`). -/
def setSession (now : Int) (rnd : Nat → Nat) (w : World) (userID : Int) :
    World × Option String :=
  let token := randHex rnd 32
  let exp := now + 7 * 24 * 3600
  match w.Exec (.insertSession token userID exp) with
  | (w1, .error err) => (w1, some err)
  | (w1, .ok _) => (w1.emit (.setCookie (sessCookie token)), none)

/-- The method `App.clearSession`. -/
def clearSession (w : World) (r : Request) : World :=
  let w1 :=
    match r.Cookie "sess" with
    | some v => if v ≠ "" then (w.Exec (.deleteSession v)).1 else w
    | none => w
  w1.emit (.setCookie clearedCookie)

/-- The method `App.currentUserID`, where `now` is what the clock reads if the function
gets to read it. -/
def currentUserID (now : Int) (w : World) (r : Request) : World × Int × Bool :=
  match r.Cookie "sess" with
  | none => (w, 0, false)
  | some v =>
    if v = "" then (w, 0, false)
    else
      let w1 := w.QueryRow (.selectSession v)
      match w1.db.selectSession v with
      | none => (w1, 0, false)
      | some row =>
        if now > row.expires_at then (w1, 0, false)
        else (w1, row.user_id, true)

/-- The method `App.requireAuth`. -/
def requireAuth (next : HandlerFunc) : HandlerFunc := fun env w r =>
  match currentUserID (env.clock 0) w r with
  | (w1, _, ok) =>
    if !ok then w1.emit (.redirect "/login" 302)
    else next env.tick w1 r

/-- The page `loginHandler` renders after a failed login. -/
def loginFailed (a : App) (w : World) : World :=
  w.emit (.executeTemplate "login.html"
    [("Error", .str "用户名或密码错误"), ("Signup", .bool a.signup)])

/-- The method `App.loginHandler`. -/
def loginHandler (a : App) (bc : Bcrypt) : HandlerFunc := fun env w r =>
  if r.method = "GET" then
    w.emit (.executeTemplate "login.html" [("Signup", .bool a.signup)])
  else if r.method = "POST" then
    let u := r.FormValue "username"
    let p := r.FormValue "password"
    let w1 := w.QueryRow (.selectUser u)
    match w1.db.selectUser u with
    | none => loginFailed a w1
    | some row =>
      let w2 := w1.emit (.bcryptCompare row.pass_hash p)
      if !bc.compare row.pass_hash p then loginFailed a w2
      else
        match setSession (env.clock 0) env.rnd w2 row.id with
        | (w3, some err) => w3.emit (.httpError err 500)
        | (w3, none) => w3.emit (.redirect "/" 302)
  else w

/-- The page `signupHandler` renders with an error message. -/
def signupFailed (w : World) (msg : String) : World :=
  w.emit (.executeTemplate "login.html"
    [("Error", .str msg), ("Signup", .bool true), ("ShowSignup", .bool true)])

/-- The method `App.signupHandler`. -/
def signupHandler (a : App) (bc : Bcrypt) : HandlerFunc := fun env w r =>
  if !a.signup then w.emit (.httpError "signup disabled" 403)
  else if r.method = "GET" then
    w.emit (.executeTemplate "login.html" [("Signup", .bool true), ("ShowSignup", .bool true)])
  else if r.method = "POST" then
    let u := r.FormValue "username"
    let p := r.FormValue "password"
    if u.utf8ByteSize < 3 ∨ p.utf8ByteSize < 6 then
      signupFailed w "用户名>=3，密码>=6"
    else
      let w1 := w.emit (.bcryptGenerate p)
      let hash := (bc.generate p env.salt).getD ""
      match w1.Exec (.insertUser u hash (env.clock 0)) with
      | (w2, .error _) => signupFailed w2 "注册失败(用户名可能已存在)"
      | (w2, .ok id) =>
        let w3 := (setSession (env.clock 1) env.rnd w2 id).1
        w3.emit (.redirect "/" 302)
  else w

/-- The method `App.logoutHandler`. -/
def logoutHandler : HandlerFunc := fun _ w r =>
  (clearSession w r).emit (.redirect "/login" 302)

/-- The window `addWatchHandler` stores for a submitted `window` field. -/
def storedWindow (field : String) : Int :=
  let window := (Atoi field).1
  if window ≤ 0 then 2500 else window

/-- The method `App.addWatchHandler`. -/
def addWatchHandler : HandlerFunc := fun _ w r =>
  if r.method ≠ "POST" then w.emit (.httpError "method" 405)
  else
    let url := TrimSpace (r.FormValue "url")
    let model := TrimSpace (r.FormValue "model")
    let countRegex := TrimSpace (r.FormValue "count_regex")
    let instockRegex := TrimSpace (r.FormValue "instock_regex")
    let oosRegex := TrimSpace (r.FormValue "oos_regex")
    let window := storedWindow (r.FormValue "window")
    if url = "" ∨ model = "" then w.emit (.redirect "/" 302)
    else
      match w.Exec (.insertWatch url model countRegex instockRegex oosRegex window) with
      | (w1, .error err) => w1.emit (.httpError err 500)
      | (w1, .ok _) => w1.emit (.redirect "/" 302)

/-! ## Reading a log -/

/-- Whether the event sets a cookie named `sess` with a non-empty value. -/
def Event.setsSess : Event → Bool
  | .setCookie c => decide (c.name = "sess") && !decide (c.value = "")
  | _ => false

/-- Whether the event is a `bcrypt.CompareHashAndPassword` call. -/
def Event.isCompare : Event → Bool
  | .bcryptCompare _ _ => true
  | _ => false

/-- Whether the event is an `INSERT INTO users`. -/
def Event.isInsertUser : Event → Bool
  | .exec (.insertUser _ _ _) => true
  | _ => false

/-- Whether the event is a statement sent through `db.Exec`. -/
def Event.isExec : Event → Bool
  | .exec _ => true
  | _ => false

/-! ## Examples and observers -/

/-- The environment of the examples: every variable unset, the clock at `1000`, random
bytes all zero. -/
def env0 : Env :=
  { getenv := fun _ => "", clock := fun _ => 1000, rnd := fun _ => 0, salt := 0 }

/-- A request carrying the cookie `sess=T`. -/
def withSess (method T : String) : Request :=
  { method := method, cookies := [("sess", T)], form := [] }

/-- A handler that does nothing but leave a mark in the log. -/
def mark (msg : String) : HandlerFunc := fun _ w _ =>
  w.emit (.logPrintln msg)

/-- The events a run added to the log of `w`, read off the world `w1` it left. -/
def newEvents (w w1 : World) : List Event :=
  w1.log.drop w.log.length

/-- A run from `w` to `w1` logged user `id` in: it added one session row, owned by `id`,
sent that row's token in the `sess` cookie and ended with the redirect to `/`. -/
def LoggedIn (w w1 : World) (id : Int) : Prop :=
  ∃ s : SessionRow, s.user_id = id ∧ w1.db.sessions = w.db.sessions ++ [s] ∧
    Event.setCookie (sessCookie s.token) ∈ newEvents w w1 ∧
    (newEvents w w1).getLast? = some (.redirect "/" 302)

/-- The contract of `bcrypt`: a hash verifies only against the password it was generated
from. -/
def Bcrypt.Sound (bc : Bcrypt) : Prop :=
  ∀ (p0 : String) (salt : Nat) (h p : String),
    bc.generate p0 salt = some h → bc.compare h p = true → p = p0

/-- A stand-in for `bcrypt` in the examples: the hash of `p` is `$` followed by `p`. -/
def toyBcrypt : Bcrypt :=
  { generate := fun p _ => some ("$" ++ p), compare := fun h p => decide (h = "$" ++ p) }

/-- A form submission. -/
def post (form : List (String × String)) : Request :=
  { method := "POST", cookies := [], form := form }

/-- A database with the single user `alice`, password `secretpw`. -/
def dbAlice : DB :=
  { DB.fresh with
    users := [{ id := 1, username := "alice", pass_hash := "$secretpw", created_at := 1000 }],
    userSeq := 1 }

/-- The database `dbAlice` with a session row that already holds the token `randHex` makes
from the random bytes of `env0`. -/
def dbAliceTaken : DB :=
  { dbAlice with
    sessions := [{ token := randHex env0.rnd 32, user_id := 1, expires_at := 5000 }] }

/-- The environment `env0` with `ADMIN_USER=admin` and `ADMIN_PASS=hunter22`. -/
def envAdmin : Env :=
  { env0 with
    getenv := fun k =>
      if k = "ADMIN_USER" then "admin" else if k = "ADMIN_PASS" then "hunter22" else "" }

/-- The row `signupHandler` inserts for `(u, p)`. -/
def signupRow (bc : Bcrypt) (env : Env) (db : DB) (u p : String) : UserRow :=
  { id := nextId db.userSeq (db.users.map (fun r => r.id)), username := u,
    pass_hash := (bc.generate p env.salt).getD "", created_at := env.clock 0 }

/-- The statement `signupHandler` sends for `(u, p)`. -/
def signupStmt (bc : Bcrypt) (env : Env) (u p : String) : Stmt :=
  .insertUser u ((bc.generate p env.salt).getD "") (env.clock 0)

/-- A valid signup form for a new user. -/
def formBobby : List (String × String) :=
  [("username", "bobby"), ("password", "longenough")]

/-- The row `addWatchHandler` inserts for a request, on database `db`. -/
def watchRow (db : DB) (r : Request) : WatchRow :=
  { id := nextId db.watchSeq (db.watches.map (fun x => x.id)),
    url := TrimSpace (r.FormValue "url"), model := TrimSpace (r.FormValue "model"),
    count_regex := TrimSpace (r.FormValue "count_regex"),
    instock_regex := TrimSpace (r.FormValue "instock_regex"),
    oos_regex := TrimSpace (r.FormValue "oos_regex"),
    window := storedWindow (r.FormValue "window"), enabled := 1, last_status := none,
    last_available := none, last_checked := none, last_notified := none }

/-- A form for `addWatchHandler` with the given `window` field. -/
def watchForm (window : String) : List (String × String) :=
  [("url", " https://shop.example/item "), ("model", "X1"), ("window", window)]

/-- The ASCII character of a decimal digit. -/
def digitChar (d : Nat) : Char :=
  Char.ofNat ('0'.toNat + d)

/-- The decimal numeral with the given digits, most significant first. -/
def numeral (ds : List Nat) : String :=
  String.mk (ds.map digitChar)

/-- The number a list of decimal digits denotes, most significant first. -/
def numeralValue (ds : List Nat) : Nat :=
  Nat.ofDigits 10 ds.reverse

/-- The `UNIQUE` constraint on `users.username`. -/
def DB.UniqueUsernames (db : DB) : Prop :=
  db.users.Pairwise (fun x y => x.username ≠ y.username)

/-! ## Shared lemmas -/

theorem randHex_ne_empty (rnd : Nat → Nat) (n : Nat) : randHex rnd (n + 1) ≠ "" := by
  intro h
  have h1 := congrArg String.length h
  simp [randHex, EncodeToString, String.length, List.range_succ_eq_map] at h1

theorem selectSession_append (db : DB) (row : SessionRow) (T : String)
    (h : db.selectSession T = none) :
    DB.selectSession { db with sessions := db.sessions ++ [row] } T
      = if row.token = T then some row else none := by
  unfold DB.selectSession at h ⊢
  simp only [List.find?_append, h, Option.none_or, List.find?_cons, List.find?_nil]
  by_cases hr : row.token = T <;> simp [hr]

theorem selectSession_filter (db : DB) (T : String) :
    DB.selectSession
      { db with sessions := db.sessions.filter (fun r => !decide (r.token = T)) } T = none := by
  unfold DB.selectSession
  simp [List.find?_eq_none]

theorem filter_of_selectSession_none (db : DB) (T : String) (h : db.selectSession T = none) :
    db.sessions.filter (fun r => !decide (r.token = T)) = db.sessions := by
  unfold DB.selectSession at h
  rw [List.find?_eq_none] at h
  rw [List.filter_eq_self]
  intro a ha
  simpa using h a ha

theorem currentUserID_of_select_none (now : Int) (w : World) (r : Request) (T : String)
    (hc : r.Cookie "sess" = some T) (h : w.db.selectSession T = none) :
    (currentUserID now w r).2 = (0, false) := by
  unfold currentUserID
  simp only [hc]
  by_cases hT : T = ""
  · simp [hT]
  · simp [hT, World.QueryRow, World.emit, h]

theorem currentUserID_of_select_some (now : Int) (w : World) (r : Request) (T : String)
    (row : SessionRow) (hc : r.Cookie "sess" = some T) (hT : T ≠ "")
    (h : w.db.selectSession T = some row) :
    (currentUserID now w r).2
      = if now > row.expires_at then (0, false) else (row.user_id, true) := by
  unfold currentUserID
  simp only [hc]
  simp only [hT, World.QueryRow, World.emit, h, if_false]
  split <;> rfl

/-! ## C1: a session lives through its expiry second -/

/-- The world after `setSession` succeeded. -/
theorem setSession_fresh (now : Int) (rnd : Nat → Nat) (w : World) (uid : Int)
    (hfresh : w.db.selectSession (randHex rnd 32) = none) :
    setSession now rnd w uid
      = ({ db := { w.db with
                    sessions := w.db.sessions ++
                      [{ token := randHex rnd 32, user_id := uid,
                         expires_at := now + 604800 }] },
           log := w.log ++ [.exec (.insertSession (randHex rnd 32) uid (now + 604800)),
                            .setCookie (sessCookie (randHex rnd 32))] }, none) := by
  simp [setSession, World.Exec, DB.exec, hfresh, World.emit]

/-- The world after `setSession` failed: the statement was sent, nothing else happened. -/
theorem setSession_collision (now : Int) (rnd : Nat → Nat) (w : World) (uid : Int)
    (row : SessionRow) (hrow : w.db.selectSession (randHex rnd 32) = some row) :
    setSession now rnd w uid
      = (w.emit (.exec (.insertSession (randHex rnd 32) uid (now + 604800))),
         some "UNIQUE constraint failed: sessions.token") := by
  simp [setSession, World.Exec, DB.exec, hrow]

/-- C1 (as amended): when `setSession(uid)` runs at time `t0` and its token `T` is not yet
in the table, it returns no error, sends the cookie `sess=T` and stores the row
`(T, uid, t0 + 604800)`; on every world whose session table still holds that row for `T`,
`currentUserID` on a request carrying `sess=T` returns `(uid, true)` at every time
`t ≤ t0 + 604800` and `(0, false)` at every time `t > t0 + 604800`. -/
theorem C1_session_valid_through_expiry (t0 : Int) (rnd : Nat → Nat) (w : World) (uid : Int)
    (hfresh : w.db.selectSession (randHex rnd 32) = none) :
    (setSession t0 rnd w uid).2 = none ∧
    (setSession t0 rnd w uid).1.log
      = w.log ++ [.exec (.insertSession (randHex rnd 32) uid (t0 + 604800)),
                  .setCookie (sessCookie (randHex rnd 32))] ∧
    (setSession t0 rnd w uid).1.db.selectSession (randHex rnd 32)
      = some { token := randHex rnd 32, user_id := uid, expires_at := t0 + 604800 } ∧
    ∀ (w2 : World) (r : Request) (t : Int),
      w2.db.selectSession (randHex rnd 32)
        = (setSession t0 rnd w uid).1.db.selectSession (randHex rnd 32) →
      r.Cookie "sess" = some (randHex rnd 32) →
      (t ≤ t0 + 604800 → (currentUserID t w2 r).2 = (uid, true)) ∧
      (t0 + 604800 < t → (currentUserID t w2 r).2 = (0, false)) := by
  have hsel : DB.selectSession
      { w.db with sessions := w.db.sessions ++
          [{ token := randHex rnd 32, user_id := uid, expires_at := t0 + 604800 }] }
      (randHex rnd 32)
      = some { token := randHex rnd 32, user_id := uid, expires_at := t0 + 604800 } := by
    rw [selectSession_append _ _ _ hfresh]; simp
  rw [setSession_fresh t0 rnd w uid hfresh]
  refine ⟨rfl, rfl, hsel, ?_⟩
  intro w2 r t hs hc
  have hsel2 : w2.db.selectSession (randHex rnd 32)
      = some { token := randHex rnd 32, user_id := uid, expires_at := t0 + 604800 } := by
    rw [hs]; exact hsel
  have hcur := currentUserID_of_select_some t w2 r _ _ hc (randHex_ne_empty rnd 31) hsel2
  constructor
  · intro ht
    rw [hcur, if_neg (not_lt.mpr ht)]
  · intro ht
    rw [hcur, if_pos ht]

theorem C1_session_valid_through_expiry_witness :
    (setSession 1000 env0.rnd ⟨DB.fresh, []⟩ 7).2 = none ∧
    (currentUserID 605800 (setSession 1000 env0.rnd ⟨DB.fresh, []⟩ 7).1
        (withSess "GET" (randHex env0.rnd 32))).2 = (7, true) ∧
    (currentUserID 605801 (setSession 1000 env0.rnd ⟨DB.fresh, []⟩ 7).1
        (withSess "GET" (randHex env0.rnd 32))).2 = (0, false) :=
  have h := C1_session_valid_through_expiry 1000 env0.rnd ⟨DB.fresh, []⟩ 7 (by decide)
  ⟨h.1,
   ((h.2.2.2 _ (withSess "GET" (randHex env0.rnd 32)) 605800 rfl (by decide)).1 (by decide)),
   ((h.2.2.2 _ (withSess "GET" (randHex env0.rnd 32)) 605801 rfl (by decide)).2 (by decide))⟩

/-- C1 as stated fails: a session created at time `1000` expires at `605800`, and at time
`605800` itself `currentUserID` still answers `(7, true)`, not `(0, false)`. -/
theorem C1_counterexample :
    (setSession 1000 env0.rnd ⟨DB.fresh, []⟩ 7).2 = none ∧
    (setSession 1000 env0.rnd ⟨DB.fresh, []⟩ 7).1.db.sessions
      = [{ token := randHex env0.rnd 32, user_id := 7, expires_at := 1000 + 604800 }] ∧
    (currentUserID (1000 + 604800) (setSession 1000 env0.rnd ⟨DB.fresh, []⟩ 7).1
        (withSess "GET" (randHex env0.rnd 32))).2 = (7, true) ∧
    (currentUserID (1000 + 604800) (setSession 1000 env0.rnd ⟨DB.fresh, []⟩ 7).1
        (withSess "GET" (randHex env0.rnd 32))).2 ≠ (0, false) := by
  decide

/-! ## C2: logout revokes the session and is idempotent -/

/-- The world after `clearSession` on a request carrying a non-empty `sess` cookie. -/
theorem clearSession_some (w : World) (r : Request) (T : String) (hT : T ≠ "")
    (hc : r.Cookie "sess" = some T) :
    clearSession w r
      = { db := { w.db with
                   sessions := w.db.sessions.filter (fun s => !decide (s.token = T)) },
          log := w.log ++ [.exec (.deleteSession T), .setCookie clearedCookie] } := by
  simp [clearSession, hc, hT, World.Exec, DB.exec, World.emit]

/-- C2: after `clearSession` on a request carrying `sess=T` with `T` non-empty,
`currentUserID` on any request carrying `sess=T` returns `(0, false)` at every time;
`clearSession` reports nothing but the `DELETE` it sent and the cleared cookie (no error
response); the other tables are untouched and the session table keeps exactly the rows
whose token is not `T`, in order; a second run leaves the database as the first run left
it, and a run with a token that is not in the table leaves the database as it was. -/
theorem C2_clearSession_revokes (w : World) (r : Request) (T : String) (hT : T ≠ "")
    (hc : r.Cookie "sess" = some T) :
    (∀ (now : Int) (w2 : World) (r2 : Request),
        w2.db.selectSession T = (clearSession w r).db.selectSession T →
        r2.Cookie "sess" = some T →
        (currentUserID now w2 r2).2 = (0, false)) ∧
    (clearSession w r).log = w.log ++ [.exec (.deleteSession T), .setCookie clearedCookie] ∧
    (clearSession w r).db
      = { w.db with sessions := w.db.sessions.filter (fun s => !decide (s.token = T)) } ∧
    (∀ s : SessionRow, s.token ≠ T →
        (s ∈ (clearSession w r).db.sessions ↔ s ∈ w.db.sessions)) ∧
    (clearSession (clearSession w r) r).db = (clearSession w r).db ∧
    (w.db.selectSession T = none → (clearSession w r).db = w.db) := by
  rw [clearSession_some (clearSession w r) r T hT hc, clearSession_some w r T hT hc]
  refine ⟨?_, rfl, rfl, ?_, ?_, ?_⟩
  · intro now w2 r2 hs hc2
    apply currentUserID_of_select_none now w2 r2 T hc2
    rw [hs]; exact selectSession_filter w.db T
  · intro s hs
    simp [List.mem_filter, hs]
  · simp [List.filter_filter]
  · intro h
    simp only [filter_of_selectSession_none w.db T h]

theorem C2_clearSession_revokes_witness :
    (currentUserID 1001
        (clearSession (setSession 1000 env0.rnd ⟨DB.fresh, []⟩ 7).1
          (withSess "POST" (randHex env0.rnd 32)))
        (withSess "GET" (randHex env0.rnd 32))).2 = (0, false) :=
  (C2_clearSession_revokes (setSession 1000 env0.rnd ⟨DB.fresh, []⟩ 7).1
    (withSess "POST" (randHex env0.rnd 32)) (randHex env0.rnd 32) (by decide) (by decide)).1
    1001 _ (withSess "GET" (randHex env0.rnd 32)) rfl (by decide)

/-! ## C3: the access-control middleware -/

/-- The world `currentUserID` leaves: the database is untouched and the log grows by at
most the session query. -/
theorem currentUserID_world (now : Int) (w : World) (r : Request) :
    (currentUserID now w r).1 = w ∨
    ∃ T, (currentUserID now w r).1 = w.emit (.query (.selectSession T)) := by
  unfold currentUserID
  cases r.Cookie "sess" with
  | none => exact Or.inl rfl
  | some v =>
    by_cases hv : v = ""
    · simp [hv]
    · refine Or.inr ⟨v, ?_⟩
      simp only [hv, if_false, World.QueryRow]
      split
      · rfl
      · split <;> rfl

/-- C3: the handler `requireAuth(next)` first runs `currentUserID`.  When that reports
authenticated, the handler is `next`, run once on the same request; when it does not, the
handler is a `302` redirect to `/login`, whatever `next` is.  Counted on a `next` that
leaves a mark: one mark when authenticated, none otherwise.  A request with no `sess`
cookie, an empty one, a token that is not in the table, or a token whose expiry is before
the clock reading, is not authenticated. -/
theorem C3_requireAuth_gate (next : HandlerFunc) (env : Env) (w : World) (r : Request) :
    ((currentUserID (env.clock 0) w r).2.2 = true →
      requireAuth next env w r = next env.tick (currentUserID (env.clock 0) w r).1 r) ∧
    ((currentUserID (env.clock 0) w r).2.2 = false →
      ∀ next2 : HandlerFunc, requireAuth next2 env w r
        = (currentUserID (env.clock 0) w r).1.emit (.redirect "/login" 302)) ∧
    (∀ msg : String,
      (requireAuth (mark msg) env w r).log.count (.logPrintln msg)
        = w.log.count (.logPrintln msg)
          + if (currentUserID (env.clock 0) w r).2.2 = true then 1 else 0) ∧
    ((r.Cookie "sess" = none ∨ r.Cookie "sess" = some "" ∨
        (∃ T, r.Cookie "sess" = some T ∧
          (w.db.selectSession T = none ∨
            ∃ row, w.db.selectSession T = some row ∧ row.expires_at < env.clock 0))) →
      (currentUserID (env.clock 0) w r).2.2 = false) := by
  refine ⟨?_, ?_, ?_, ?_⟩
  · intro h
    simp [requireAuth, h]
  · intro h next2
    simp [requireAuth, h]
  · intro msg
    cases hok : (currentUserID (env.clock 0) w r).2.2
    · rcases currentUserID_world (env.clock 0) w r with hw | ⟨T, hw⟩ <;>
        simp [requireAuth, hok, hw, World.emit, List.count_append, List.count_cons]
    · rcases currentUserID_world (env.clock 0) w r with hw | ⟨T, hw⟩ <;>
        simp [requireAuth, hok, hw, World.emit, mark, List.count_append, List.count_cons]
  · rintro (h | h | ⟨T, hc, h | ⟨row, hrow, hexp⟩⟩)
    · simp [currentUserID, h]
    · simp [currentUserID, h]
    · rw [currentUserID_of_select_none _ w r T hc h]
    · by_cases hT : T = ""
      · subst hT; simp [currentUserID, hc]
      · rw [currentUserID_of_select_some _ w r T row hc hT hrow, if_pos hexp]

/-- C3 on examples: with a valid session the marking handler runs once; with no cookie,
and with the same session after its expiry, it does not run and the answer is the
redirect. -/
theorem C3_requireAuth_gate_examples :
    (requireAuth (mark "next") env0 (setSession 1000 env0.rnd ⟨DB.fresh, []⟩ 7).1
        (withSess "GET" (randHex env0.rnd 32))).log.count (.logPrintln "next") = 1 ∧
    (requireAuth (mark "next") env0 ⟨DB.fresh, []⟩ ⟨"GET", [], []⟩).log
      = [.redirect "/login" 302] ∧
    (requireAuth (mark "next") { env0 with clock := fun _ => 605801 }
        (setSession 1000 env0.rnd ⟨DB.fresh, []⟩ 7).1
        (withSess "GET" (randHex env0.rnd 32))).log.count (.logPrintln "next") = 0 := by
  decide

/-! ## C4: login -/

theorem selectUser_eq_some_iff (db : DB) (u : String) (row : UserRow)
    (huniq : db.UniqueUsernames) :
    db.selectUser u = some row ↔ row ∈ db.users ∧ row.username = u := by
  unfold DB.selectUser
  constructor
  · intro h
    exact ⟨List.mem_of_find?_eq_some h, by simpa using List.find?_some h⟩
  · rintro ⟨hmem, hname⟩
    cases hf : db.users.find? (fun r => decide (r.username = u)) with
    | none =>
      rw [List.find?_eq_none] at hf
      exact absurd hname (by simpa using hf row hmem)
    | some row2 =>
      have h2 : row2.username = u := by simpa using List.find?_some hf
      have hmem2 := List.mem_of_find?_eq_some hf
      by_cases heq : row2 = row
      · rw [heq]
      · exact absurd (h2.trans hname.symm)
          (huniq.forall (fun _ _ hxy => Ne.symm hxy) hmem2 hmem heq)

theorem selectUser_eq_none_iff (db : DB) (u : String) :
    db.selectUser u = none ↔ ∀ row ∈ db.users, row.username ≠ u := by
  unfold DB.selectUser
  rw [List.find?_eq_none]
  simp

theorem newEvents_append (w : World) (db : DB) (evs : List Event) :
    newEvents w { db := db, log := w.log ++ evs } = evs := by
  simp [newEvents]

/-- The run of `loginHandler` on a POST whose username is not in the table. -/
theorem loginHandler_absent (a : App) (bc : Bcrypt) (env : Env) (w : World) (r : Request)
    (hm : r.method = "POST") (h : w.db.selectUser (r.FormValue "username") = none) :
    loginHandler a bc env w r
      = { db := w.db,
          log := w.log ++ [.query (.selectUser (r.FormValue "username")),
            .executeTemplate "login.html"
              [("Error", .str "用户名或密码错误"), ("Signup", .bool a.signup)]] } := by
  simp [loginHandler, hm, World.QueryRow, World.emit, h, loginFailed]

/-- The run of `loginHandler` on a POST whose password does not verify. -/
theorem loginHandler_mismatch (a : App) (bc : Bcrypt) (env : Env) (w : World) (r : Request)
    (row : UserRow)
    (hm : r.method = "POST") (h : w.db.selectUser (r.FormValue "username") = some row)
    (hc : bc.compare row.pass_hash (r.FormValue "password") = false) :
    loginHandler a bc env w r
      = { db := w.db,
          log := w.log ++ [.query (.selectUser (r.FormValue "username")),
            .bcryptCompare row.pass_hash (r.FormValue "password"),
            .executeTemplate "login.html"
              [("Error", .str "用户名或密码错误"), ("Signup", .bool a.signup)]] } := by
  simp [loginHandler, hm, World.QueryRow, World.emit, h, hc, loginFailed]

/-- The run of `loginHandler` on a POST with valid credentials and a new token. -/
theorem loginHandler_ok (a : App) (bc : Bcrypt) (env : Env) (w : World) (r : Request)
    (row : UserRow)
    (hm : r.method = "POST") (h : w.db.selectUser (r.FormValue "username") = some row)
    (hc : bc.compare row.pass_hash (r.FormValue "password") = true)
    (hfresh : w.db.selectSession (randHex env.rnd 32) = none) :
    loginHandler a bc env w r
      = { db := { w.db with
                   sessions := w.db.sessions ++
                     [{ token := randHex env.rnd 32, user_id := row.id,
                        expires_at := env.clock 0 + 604800 }] },
          log := w.log ++ [.query (.selectUser (r.FormValue "username")),
            .bcryptCompare row.pass_hash (r.FormValue "password"),
            .exec (.insertSession (randHex env.rnd 32) row.id (env.clock 0 + 604800)),
            .setCookie (sessCookie (randHex env.rnd 32)),
            .redirect "/" 302] } := by
  have hs := setSession_fresh (env.clock 0) env.rnd
    { db := w.db, log := w.log ++ [.query (.selectUser (r.FormValue "username")),
        .bcryptCompare row.pass_hash (r.FormValue "password")] } row.id hfresh
  simp only [loginHandler, hm, World.QueryRow, World.emit, h, hc] at hs ⊢
  simp [hs]

/-- The run of `loginHandler` on a POST with valid credentials when the session row
cannot be stored. -/
theorem loginHandler_collision (a : App) (bc : Bcrypt) (env : Env) (w : World) (r : Request)
    (row : UserRow) (srow : SessionRow)
    (hm : r.method = "POST") (h : w.db.selectUser (r.FormValue "username") = some row)
    (hc : bc.compare row.pass_hash (r.FormValue "password") = true)
    (htaken : w.db.selectSession (randHex env.rnd 32) = some srow) :
    loginHandler a bc env w r
      = { db := w.db,
          log := w.log ++ [.query (.selectUser (r.FormValue "username")),
            .bcryptCompare row.pass_hash (r.FormValue "password"),
            .exec (.insertSession (randHex env.rnd 32) row.id (env.clock 0 + 604800)),
            .httpError "UNIQUE constraint failed: sessions.token" 500] } := by
  have hs := setSession_collision (env.clock 0) env.rnd
    { db := w.db, log := w.log ++ [.query (.selectUser (r.FormValue "username")),
        .bcryptCompare row.pass_hash (r.FormValue "password")] } row.id srow htaken
  simp only [loginHandler, hm, World.QueryRow, World.emit, h, hc] at hs ⊢
  simp [hs]

/-- C4 (as amended): on a login POST with submitted `(u, p)`, over a user table that
satisfies the `UNIQUE` constraint on usernames, the run logs a user in if and only if a user row with username `u`
exists, `p` verifies against that row's stored hash, and the session row can be stored
(the new token is not already in the session table); the user logged in is that row's
id; a run that logs nobody in leaves the database unchanged and sets no `sess` cookie;
and when `bcrypt` verifies a hash only against the password it was made from, no run
logs in with a password different from the one the stored hash was made from. -/
theorem C4_login_iff (a : App) (bc : Bcrypt) (env : Env) (w : World) (r : Request)
    (hm : r.method = "POST")
    (huniq : w.db.UniqueUsernames) :
    ((∃ id, LoggedIn w (loginHandler a bc env w r) id) ↔
      (∃ row ∈ w.db.users, row.username = r.FormValue "username" ∧
        bc.compare row.pass_hash (r.FormValue "password") = true) ∧
      w.db.selectSession (randHex env.rnd 32) = none) ∧
    (∀ row ∈ w.db.users, row.username = r.FormValue "username" →
      ∀ id, LoggedIn w (loginHandler a bc env w r) id → id = row.id) ∧
    ((¬ ∃ id, LoggedIn w (loginHandler a bc env w r) id) →
      (loginHandler a bc env w r).db = w.db ∧
      (newEvents w (loginHandler a bc env w r)).any Event.setsSess = false) ∧
    (bc.Sound → ∀ row ∈ w.db.users, row.username = r.FormValue "username" →
      ∀ (p0 : String) (salt : Nat), bc.generate p0 salt = some row.pass_hash →
      r.FormValue "password" ≠ p0 → ¬ ∃ id, LoggedIn w (loginHandler a bc env w r) id) := by
  cases hsel : w.db.selectUser (r.FormValue "username") with
  | none =>
    have hno := (selectUser_eq_none_iff _ _).mp hsel
    have hfail : ¬ ∃ id, LoggedIn w (loginHandler a bc env w r) id := by
      rw [loginHandler_absent a bc env w r hm hsel]
      rintro ⟨id, s, -, -, -, hlast⟩
      rw [newEvents_append] at hlast
      simp at hlast
    refine ⟨⟨fun h => absurd h hfail, ?_⟩, ?_, ?_, ?_⟩
    · rintro ⟨⟨row, hmem, hname, -⟩, -⟩
      exact absurd hname (hno row hmem)
    · intro row hmem hname
      exact absurd hname (hno row hmem)
    · intro _
      rw [loginHandler_absent a bc env w r hm hsel, newEvents_append]
      exact ⟨rfl, by simp [Event.setsSess]⟩
    · intro _ row hmem hname
      exact absurd hname (hno row hmem)
  | some row =>
    have hrow := (selectUser_eq_some_iff _ _ row huniq).mp hsel
    have hthe : ∀ row2 ∈ w.db.users, row2.username = r.FormValue "username" → row2 = row := by
      intro row2 hmem2 hname2
      have h2 := (selectUser_eq_some_iff _ _ row2 huniq).mpr ⟨hmem2, hname2⟩
      rw [hsel] at h2
      exact (Option.some.inj h2).symm
    cases hcmp : bc.compare row.pass_hash (r.FormValue "password") with
    | false =>
      have hfail : ¬ ∃ id, LoggedIn w (loginHandler a bc env w r) id := by
        rw [loginHandler_mismatch a bc env w r row hm hsel hcmp]
        rintro ⟨id, s, -, -, -, hlast⟩
        rw [newEvents_append] at hlast
        simp at hlast
      refine ⟨⟨fun h => absurd h hfail, ?_⟩, ?_, ?_, ?_⟩
      · rintro ⟨⟨row2, hmem2, hname2, hc2⟩, -⟩
        rw [hthe row2 hmem2 hname2, hcmp] at hc2
        exact absurd hc2 (by decide)
      · intro row2 _ _ id hid
        exact absurd ⟨id, hid⟩ hfail
      · intro _
        rw [loginHandler_mismatch a bc env w r row hm hsel hcmp, newEvents_append]
        exact ⟨rfl, by simp [Event.setsSess]⟩
      · intro _ _ _ _ _ _ _ _
        exact hfail
    | true =>
      cases hses : w.db.selectSession (randHex env.rnd 32) with
      | some srow =>
        have hfail : ¬ ∃ id, LoggedIn w (loginHandler a bc env w r) id := by
          rw [loginHandler_collision a bc env w r row srow hm hsel hcmp hses]
          rintro ⟨id, s, -, -, -, hlast⟩
          rw [newEvents_append] at hlast
          simp at hlast
        refine ⟨⟨fun h => absurd h hfail, ?_⟩, ?_, ?_, ?_⟩
        · rintro ⟨-, hnone⟩
          exact absurd hnone (by simp)
        · intro row2 _ _ id hid
          exact absurd ⟨id, hid⟩ hfail
        · intro _
          rw [loginHandler_collision a bc env w r row srow hm hsel hcmp hses, newEvents_append]
          exact ⟨rfl, by simp [Event.setsSess]⟩
        · intro _ _ _ _ _ _ _ _
          exact hfail
      | none =>
        have hid : ∀ id, LoggedIn w (loginHandler a bc env w r) id ↔ id = row.id := by
          intro id
          rw [loginHandler_ok a bc env w r row hm hsel hcmp hses]
          unfold LoggedIn
          rw [newEvents_append]
          constructor
          · rintro ⟨s, hs, hrows, -, -⟩
            have := List.append_cancel_left hrows
            simp only [List.cons.injEq, and_true] at this
            rw [← hs, ← this]
          · intro h
            exact ⟨_, h.symm, rfl, by simp, by simp⟩
        refine ⟨⟨fun _ => ⟨⟨row, hrow.1, hrow.2, hcmp⟩, rfl⟩,
                 fun _ => ⟨row.id, (hid _).mpr rfl⟩⟩, ?_, ?_, ?_⟩
        · intro row2 hmem2 hname2 id h
          rw [hthe row2 hmem2 hname2]
          exact (hid id).mp h
        · intro h
          exact absurd ⟨row.id, (hid _).mpr rfl⟩ h
        · intro hsound row2 hmem2 hname2 p0 salt hgen hne _
          rw [hthe row2 hmem2 hname2] at hgen
          exact hne (hsound p0 salt _ _ hgen hcmp)

theorem C4_login_iff_witness :
    (∃ id, LoggedIn ⟨dbAlice, []⟩
        (loginHandler ⟨"change-me", false⟩ toyBcrypt env0 ⟨dbAlice, []⟩
          (post [("username", "alice"), ("password", "secretpw")])) id) ∧
    ¬ (∃ id, LoggedIn ⟨dbAlice, []⟩
        (loginHandler ⟨"change-me", false⟩ toyBcrypt env0 ⟨dbAlice, []⟩
          (post [("username", "alice"), ("password", "wrong")])) id) :=
  ⟨(C4_login_iff ⟨"change-me", false⟩ toyBcrypt env0 ⟨dbAlice, []⟩
      (post [("username", "alice"), ("password", "secretpw")]) rfl
      (by unfold DB.UniqueUsernames; decide)).1.mpr
      ⟨⟨_, List.mem_singleton.mpr rfl, by decide, by decide⟩, by decide⟩,
   fun h =>
    absurd ((C4_login_iff ⟨"change-me", false⟩ toyBcrypt env0 ⟨dbAlice, []⟩
      (post [("username", "alice"), ("password", "wrong")]) rfl
      (by unfold DB.UniqueUsernames; decide)).1.mp h).1
      (by decide)⟩

/-- C4 as stated fails: `alice` exists and the submitted password verifies against her
stored hash, yet the login does not succeed, because the token `randHex` produced is
already in the session table and the `INSERT` is refused; the answer is a `500`. -/
theorem C4_counterexample :
    (∃ row ∈ dbAliceTaken.users, row.username = "alice" ∧
      toyBcrypt.compare row.pass_hash "secretpw" = true) ∧
    (loginHandler ⟨"change-me", false⟩ toyBcrypt env0 ⟨dbAliceTaken, []⟩
        (post [("username", "alice"), ("password", "secretpw")])).log
      = [.query (.selectUser "alice"), .bcryptCompare "$secretpw" "secretpw",
         .exec (.insertSession (randHex env0.rnd 32) 1 605800),
         .httpError "UNIQUE constraint failed: sessions.token" 500] ∧
    (loginHandler ⟨"change-me", false⟩ toyBcrypt env0 ⟨dbAliceTaken, []⟩
        (post [("username", "alice"), ("password", "secretpw")])).db = dbAliceTaken ∧
    ¬ ∃ id, LoggedIn ⟨dbAliceTaken, []⟩
        (loginHandler ⟨"change-me", false⟩ toyBcrypt env0 ⟨dbAliceTaken, []⟩
          (post [("username", "alice"), ("password", "secretpw")])) id := by
  refine ⟨by decide, by decide, by decide, ?_⟩
  rintro ⟨id, s, -, -, -, hlast⟩
  revert hlast
  decide

/-! ## C5: bootstrap of the first account -/

/-- The run of `bootstrapAdmin` that creates the account. -/
theorem bootstrapAdmin_creates (bc : Bcrypt) (env : Env) (w : World)
    (hu : env.getenv "ADMIN_USER" ≠ "") (hp : env.getenv "ADMIN_PASS" ≠ "")
    (hempty : w.db.users = []) :
    (bootstrapAdmin bc env w).db
      = { w.db with
          users := [{ id := w.db.userSeq + 1, username := env.getenv "ADMIN_USER",
                      pass_hash := (bc.generate (env.getenv "ADMIN_PASS") env.salt).getD "",
                      created_at := env.clock 0 }],
          userSeq := w.db.userSeq + 1 } := by
  simp [bootstrapAdmin, hu, hp, World.QueryRow, World.emit, DB.countUsers, hempty,
    World.Exec, DB.exec, DB.selectUser, nextId]

/-- The run of `bootstrapAdmin` that creates nothing. -/
theorem bootstrapAdmin_skips (bc : Bcrypt) (env : Env) (w : World)
    (h : env.getenv "ADMIN_USER" = "" ∨ env.getenv "ADMIN_PASS" = "" ∨ w.db.users ≠ []) :
    (bootstrapAdmin bc env w).db = w.db := by
  unfold bootstrapAdmin
  by_cases hc : env.getenv "ADMIN_USER" = "" ∨ env.getenv "ADMIN_PASS" = ""
  · simp [hc]
  · have hne : w.db.users ≠ [] := by
      rcases h with h | h | h
      · exact absurd (Or.inl h) hc
      · exact absurd (Or.inr h) hc
      · exact h
    have hpos : w.db.users.length > 0 := List.length_pos.mpr hne
    have hcnt : (0 : Int) < (w.db.users.length : Int) := by exact_mod_cast hpos
    simp [hc, World.QueryRow, World.emit, DB.countUsers, hcnt]

/-- C5: when `ADMIN_USER` and `ADMIN_PASS` are both non-empty and the user table is
empty, `bootstrapAdmin` leaves a user table of exactly one row, named `ADMIN_USER`; in
every other case (either value empty, or at least one user present) it leaves the
database unchanged; and from an empty table a second run under the same configuration
leaves the database as the first run left it, with one user when the configuration is
complete. -/
theorem C5_bootstrapAdmin_once (bc : Bcrypt) (env : Env) (w : World) :
    ((env.getenv "ADMIN_USER" ≠ "" ∧ env.getenv "ADMIN_PASS" ≠ "" ∧ w.db.users = []) →
      ∃ row : UserRow, (bootstrapAdmin bc env w).db.users = [row] ∧
        row.username = env.getenv "ADMIN_USER") ∧
    ((env.getenv "ADMIN_USER" = "" ∨ env.getenv "ADMIN_PASS" = "" ∨ w.db.users ≠ []) →
      (bootstrapAdmin bc env w).db = w.db) ∧
    (∀ (bc2 : Bcrypt) (env2 : Env), env2.getenv = env.getenv → w.db.users = [] →
      (bootstrapAdmin bc2 env2 (bootstrapAdmin bc env w)).db = (bootstrapAdmin bc env w).db ∧
      ((env.getenv "ADMIN_USER" ≠ "" ∧ env.getenv "ADMIN_PASS" ≠ "") →
        (bootstrapAdmin bc2 env2 (bootstrapAdmin bc env w)).db.users.length = 1)) := by
  refine ⟨?_, bootstrapAdmin_skips bc env w, ?_⟩
  · rintro ⟨hu, hp, hempty⟩
    rw [bootstrapAdmin_creates bc env w hu hp hempty]
    exact ⟨_, rfl, rfl⟩
  · intro bc2 env2 henv hempty
    by_cases hc : env.getenv "ADMIN_USER" = "" ∨ env.getenv "ADMIN_PASS" = ""
    · have h1 : (bootstrapAdmin bc env w).db = w.db := by
        apply bootstrapAdmin_skips
        rcases hc with hc | hc
        · exact Or.inl hc
        · exact Or.inr (Or.inl hc)
      constructor
      · apply bootstrapAdmin_skips
        rw [henv]
        rcases hc with hc | hc
        · exact Or.inl hc
        · exact Or.inr (Or.inl hc)
      · rintro ⟨hu, hp⟩
        rcases hc with hc | hc
        · exact absurd hc hu
        · exact absurd hc hp
    · have hu : env.getenv "ADMIN_USER" ≠ "" := fun h => hc (Or.inl h)
      have hp : env.getenv "ADMIN_PASS" ≠ "" := fun h => hc (Or.inr h)
      have h1 := bootstrapAdmin_creates bc env w hu hp hempty
      have h2 : (bootstrapAdmin bc2 env2 (bootstrapAdmin bc env w)).db
          = (bootstrapAdmin bc env w).db := by
        apply bootstrapAdmin_skips
        right; right
        rw [h1]
        simp
      refine ⟨h2, fun _ => ?_⟩
      rw [h2, h1]
      rfl

/-- C5 on an example: a first start on a fresh database creates `admin`, a restart adds
nothing, and a start without `ADMIN_PASS` creates nothing. -/
theorem C5_bootstrapAdmin_examples :
    (bootstrapAdmin toyBcrypt envAdmin ⟨DB.fresh, []⟩).db.users
      = [{ id := 1, username := "admin", pass_hash := "$hunter22", created_at := 1000 }] ∧
    (bootstrapAdmin toyBcrypt envAdmin (bootstrapAdmin toyBcrypt envAdmin ⟨DB.fresh, []⟩)).db
      = (bootstrapAdmin toyBcrypt envAdmin ⟨DB.fresh, []⟩).db ∧
    (bootstrapAdmin toyBcrypt env0 ⟨DB.fresh, []⟩).db = DB.fresh ∧
    (bootstrapAdmin toyBcrypt envAdmin ⟨dbAlice, []⟩).db = dbAlice := by
  decide

/-! ## C6: signup disabled -/

/-- C6: when the `signup` flag is false, `signupHandler` answers every request with
`http.Error(w, "signup disabled", 403)` and does nothing else: the database is as it
was, the only new event is that response, and no `sess` cookie is set. -/
theorem C6_signup_disabled (a : App) (bc : Bcrypt) (env : Env) (w : World) (r : Request)
    (hoff : a.signup = false) :
    signupHandler a bc env w r = w.emit (.httpError "signup disabled" 403) ∧
    (signupHandler a bc env w r).db = w.db ∧
    newEvents w (signupHandler a bc env w r) = [.httpError "signup disabled" 403] ∧
    (newEvents w (signupHandler a bc env w r)).any Event.setsSess = false := by
  have h : signupHandler a bc env w r = w.emit (.httpError "signup disabled" 403) := by
    simp [signupHandler, hoff]
  rw [h]
  refine ⟨rfl, rfl, ?_, ?_⟩ <;> simp [newEvents, World.emit, Event.setsSess]

theorem C6_signup_disabled_witness :
    signupHandler ⟨"change-me", false⟩ toyBcrypt env0 ⟨dbAlice, []⟩
        (post [("username", "bobby"), ("password", "longenough")])
      = ⟨dbAlice, [.httpError "signup disabled" 403]⟩ :=
  (C6_signup_disabled ⟨"change-me", false⟩ toyBcrypt env0 ⟨dbAlice, []⟩
    (post [("username", "bobby"), ("password", "longenough")]) rfl).1

/-! ## C7: signup validation -/

/-- The run of `signupHandler` on a POST that fails the length check. -/
theorem signupHandler_invalid (a : App) (bc : Bcrypt) (env : Env) (w : World) (r : Request)
    (hon : a.signup = true) (hm : r.method = "POST")
    (hbad : (r.FormValue "username").utf8ByteSize < 3 ∨
      (r.FormValue "password").utf8ByteSize < 6) :
    signupHandler a bc env w r
      = { db := w.db,
          log := w.log ++ [.executeTemplate "login.html"
            [("Error", .str "用户名>=3，密码>=6"), ("Signup", .bool true),
             ("ShowSignup", .bool true)]] } := by
  simp [signupHandler, hon, hm, hbad, signupFailed, World.emit]

/-- The run of `signupHandler` on a valid POST whose username is taken. -/
theorem signupHandler_duplicate (a : App) (bc : Bcrypt) (env : Env) (w : World)
    (r : Request) (row : UserRow)
    (hon : a.signup = true) (hm : r.method = "POST")
    (hu : 3 ≤ (r.FormValue "username").utf8ByteSize)
    (hp : 6 ≤ (r.FormValue "password").utf8ByteSize)
    (htaken : w.db.selectUser (r.FormValue "username") = some row) :
    signupHandler a bc env w r
      = { db := w.db,
          log := w.log ++ [.bcryptGenerate (r.FormValue "password"),
            .exec (signupStmt bc env (r.FormValue "username") (r.FormValue "password")),
            .executeTemplate "login.html"
              [("Error", .str "注册失败(用户名可能已存在)"), ("Signup", .bool true),
               ("ShowSignup", .bool true)]] } := by
  have hok : ¬ ((r.FormValue "username").utf8ByteSize < 3 ∨
      (r.FormValue "password").utf8ByteSize < 6) := by omega
  simp [signupHandler, hon, hm, hok, signupFailed, World.emit, World.Exec, DB.exec, htaken,
    signupStmt]

/-- The run of `signupHandler` on a valid POST with a new username and a new token. -/
theorem signupHandler_ok (a : App) (bc : Bcrypt) (env : Env) (w : World)
    (r : Request)
    (hon : a.signup = true) (hm : r.method = "POST")
    (hu : 3 ≤ (r.FormValue "username").utf8ByteSize)
    (hp : 6 ≤ (r.FormValue "password").utf8ByteSize)
    (hnew : w.db.selectUser (r.FormValue "username") = none)
    (hfresh : w.db.selectSession (randHex env.rnd 32) = none) :
    signupHandler a bc env w r
      = { db := { w.db with
            users := w.db.users ++
              [signupRow bc env w.db (r.FormValue "username") (r.FormValue "password")],
            userSeq := nextId w.db.userSeq (w.db.users.map (fun r => r.id)),
            sessions := w.db.sessions ++
              [{ token := randHex env.rnd 32,
                 user_id := nextId w.db.userSeq (w.db.users.map (fun r => r.id)),
                 expires_at := env.clock 1 + 604800 }] },
          log := w.log ++ [.bcryptGenerate (r.FormValue "password"),
            .exec (signupStmt bc env (r.FormValue "username") (r.FormValue "password")),
            .exec (.insertSession (randHex env.rnd 32)
              (nextId w.db.userSeq (w.db.users.map (fun r => r.id))) (env.clock 1 + 604800)),
            .setCookie (sessCookie (randHex env.rnd 32)),
            .redirect "/" 302] } := by
  have hok : ¬ ((r.FormValue "username").utf8ByteSize < 3 ∨
      (r.FormValue "password").utf8ByteSize < 6) := by omega
  have hfresh2 : DB.selectSession
      { w.db with
        users := w.db.users ++
          [signupRow bc env w.db (r.FormValue "username") (r.FormValue "password")],
        userSeq := nextId w.db.userSeq (w.db.users.map (fun r => r.id)) }
      (randHex env.rnd 32) = none := hfresh
  have hs := setSession_fresh (env.clock 1) env.rnd
    { db := { w.db with
        users := w.db.users ++
          [signupRow bc env w.db (r.FormValue "username") (r.FormValue "password")],
        userSeq := nextId w.db.userSeq (w.db.users.map (fun r => r.id)) },
      log := w.log ++ [.bcryptGenerate (r.FormValue "password"),
        .exec (signupStmt bc env (r.FormValue "username") (r.FormValue "password"))] }
    (nextId w.db.userSeq (w.db.users.map (fun r => r.id))) hfresh2
  simp only [signupHandler, hon, hm, hok, World.emit, World.Exec, DB.exec, hnew,
    signupStmt, signupRow] at hs ⊢
  simp [hs]

/-- The run of `signupHandler` on a valid POST with a new username when the session row
cannot be stored: the error of `setSession` is dropped and the answer is the redirect to
`/`, with no cookie. -/
theorem signupHandler_collision (a : App) (bc : Bcrypt) (env : Env) (w : World)
    (r : Request) (srow : SessionRow)
    (hon : a.signup = true) (hm : r.method = "POST")
    (hu : 3 ≤ (r.FormValue "username").utf8ByteSize)
    (hp : 6 ≤ (r.FormValue "password").utf8ByteSize)
    (hnew : w.db.selectUser (r.FormValue "username") = none)
    (htaken : w.db.selectSession (randHex env.rnd 32) = some srow) :
    signupHandler a bc env w r
      = { db := { w.db with
            users := w.db.users ++
              [signupRow bc env w.db (r.FormValue "username") (r.FormValue "password")],
            userSeq := nextId w.db.userSeq (w.db.users.map (fun r => r.id)) },
          log := w.log ++ [.bcryptGenerate (r.FormValue "password"),
            .exec (signupStmt bc env (r.FormValue "username") (r.FormValue "password")),
            .exec (.insertSession (randHex env.rnd 32)
              (nextId w.db.userSeq (w.db.users.map (fun r => r.id))) (env.clock 1 + 604800)),
            .redirect "/" 302] } := by
  have hok : ¬ ((r.FormValue "username").utf8ByteSize < 3 ∨
      (r.FormValue "password").utf8ByteSize < 6) := by omega
  have htaken2 : DB.selectSession
      { w.db with
        users := w.db.users ++
          [signupRow bc env w.db (r.FormValue "username") (r.FormValue "password")],
        userSeq := nextId w.db.userSeq (w.db.users.map (fun r => r.id)) }
      (randHex env.rnd 32) = some srow := htaken
  have hs := setSession_collision (env.clock 1) env.rnd
    { db := { w.db with
        users := w.db.users ++
          [signupRow bc env w.db (r.FormValue "username") (r.FormValue "password")],
        userSeq := nextId w.db.userSeq (w.db.users.map (fun r => r.id)) },
      log := w.log ++ [.bcryptGenerate (r.FormValue "password"),
        .exec (signupStmt bc env (r.FormValue "username") (r.FormValue "password"))] }
    (nextId w.db.userSeq (w.db.users.map (fun r => r.id))) srow htaken2
  simp only [signupHandler, hon, hm, hok, World.emit, World.Exec, DB.exec, hnew,
    signupStmt, signupRow] at hs ⊢
  simp [hs]

/-- The statements a run of `signupHandler` on a valid POST sends to `users`: the one
`INSERT`, once, whatever happens next. -/
theorem signupHandler_valid_inserts (a : App) (bc : Bcrypt) (env : Env) (w : World)
    (r : Request) (hon : a.signup = true) (hm : r.method = "POST")
    (hu : 3 ≤ (r.FormValue "username").utf8ByteSize)
    (hp : 6 ≤ (r.FormValue "password").utf8ByteSize) :
    (newEvents w (signupHandler a bc env w r)).filter Event.isInsertUser
      = [.exec (signupStmt bc env (r.FormValue "username") (r.FormValue "password"))] := by
  cases hsel : w.db.selectUser (r.FormValue "username") with
  | some row =>
    rw [signupHandler_duplicate a bc env w r row hon hm hu hp hsel, newEvents_append]
    simp [Event.isInsertUser, signupStmt]
  | none =>
    cases hses : w.db.selectSession (randHex env.rnd 32) with
    | none =>
      rw [signupHandler_ok a bc env w r hon hm hu hp hsel hses, newEvents_append]
      simp [Event.isInsertUser, signupStmt]
    | some srow =>
      rw [signupHandler_collision a bc env w r srow hon hm hu hp hsel hses, newEvents_append]
      simp [Event.isInsertUser, signupStmt]

/-- C7: with signup enabled, on a signup POST with submitted `(u, p)`, where `len` is Go's
`len` (the number of bytes of the string): if `len(u) < 3` or `len(p) < 6` the handler
only renders the validation error, so the database is unchanged, no statement is sent to
the store and no `sess` cookie is set; the `INSERT INTO users` is sent exactly when
`len(u) >= 3` and `len(p) >= 6`, and then it is sent once, for `u` and the hash of `p`. -/
theorem C7_signup_validation (a : App) (bc : Bcrypt) (env : Env) (w : World) (r : Request)
    (hon : a.signup = true) (hm : r.method = "POST") :
    (((r.FormValue "username").utf8ByteSize < 3 ∨ (r.FormValue "password").utf8ByteSize < 6) →
      (signupHandler a bc env w r).db = w.db ∧
      newEvents w (signupHandler a bc env w r)
        = [.executeTemplate "login.html"
            [("Error", .str "用户名>=3，密码>=6"), ("Signup", .bool true),
             ("ShowSignup", .bool true)]] ∧
      (newEvents w (signupHandler a bc env w r)).any Event.isExec = false ∧
      (newEvents w (signupHandler a bc env w r)).any Event.setsSess = false) ∧
    ((newEvents w (signupHandler a bc env w r)).any Event.isInsertUser = true ↔
      3 ≤ (r.FormValue "username").utf8ByteSize ∧
      6 ≤ (r.FormValue "password").utf8ByteSize) ∧
    ((3 ≤ (r.FormValue "username").utf8ByteSize ∧
        6 ≤ (r.FormValue "password").utf8ByteSize) →
      (newEvents w (signupHandler a bc env w r)).filter Event.isInsertUser
        = [.exec (.insertUser (r.FormValue "username")
            ((bc.generate (r.FormValue "password") env.salt).getD "") (env.clock 0))]) := by
  refine ⟨?_, ?_, ?_⟩
  · intro hbad
    rw [signupHandler_invalid a bc env w r hon hm hbad, newEvents_append]
    exact ⟨rfl, rfl, by simp [Event.isExec], by simp [Event.setsSess]⟩
  · constructor
    · intro hany
      by_contra hnot
      have hbad : (r.FormValue "username").utf8ByteSize < 3 ∨
          (r.FormValue "password").utf8ByteSize < 6 := by omega
      rw [signupHandler_invalid a bc env w r hon hm hbad, newEvents_append] at hany
      simp [Event.isInsertUser] at hany
    · rintro ⟨hu, hp⟩
      have h := signupHandler_valid_inserts a bc env w r hon hm hu hp
      rw [List.any_eq_true]
      refine ⟨.exec (signupStmt bc env (r.FormValue "username") (r.FormValue "password")),
        ?_, rfl⟩
      have hmem : Event.exec
          (signupStmt bc env (r.FormValue "username") (r.FormValue "password"))
          ∈ (newEvents w (signupHandler a bc env w r)).filter Event.isInsertUser := by
        rw [h]; exact List.mem_singleton.mpr rfl
      exact (List.mem_filter.mp hmem).1
  · rintro ⟨hu, hp⟩
    exact signupHandler_valid_inserts a bc env w r hon hm hu hp

theorem C7_signup_validation_witness :
    (signupHandler ⟨"change-me", true⟩ toyBcrypt env0 ⟨dbAlice, []⟩
        (post [("username", "bo"), ("password", "longenough")])).db = dbAlice ∧
    (newEvents ⟨dbAlice, []⟩ (signupHandler ⟨"change-me", true⟩ toyBcrypt env0 ⟨dbAlice, []⟩
        (post formBobby))).filter Event.isInsertUser
      = [.exec (.insertUser "bobby" "$longenough" 1000)] :=
  ⟨((C7_signup_validation ⟨"change-me", true⟩ toyBcrypt env0 ⟨dbAlice, []⟩
      (post [("username", "bo"), ("password", "longenough")]) rfl rfl).1
      (Or.inl (by decide))).1,
   (C7_signup_validation ⟨"change-me", true⟩ toyBcrypt env0 ⟨dbAlice, []⟩
      (post formBobby) rfl rfl).2.2 ⟨by decide, by decide⟩⟩

/-- The length `signupHandler` checks is the number of bytes: a username of two Chinese
characters and a password of two pass the check, because each takes six bytes. -/
theorem signup_len_counts_bytes :
    "张三".length = 2 ∧ "张三".utf8ByteSize = 6 ∧ "密码".length = 2 ∧
    "密码".utf8ByteSize = 6 ∧
    (signupHandler ⟨"change-me", true⟩ toyBcrypt env0 ⟨DB.fresh, []⟩
        (post [("username", "张三"), ("password", "密码")])).db.users
      = [{ id := 1, username := "张三", pass_hash := "$密码", created_at := 1000 }] := by
  decide

/-! ## C8: a failed session insert -/

/-- C8 at the failing input: signup is enabled, `bobby` is a new user with a valid
password, and the token `randHex` produces is already in the session table, so the
`INSERT INTO sessions` fails.  `signupHandler` drops the error: the user row is created,
no session row is added, no `sess` cookie is set, and the answer is the redirect to `/`. -/
theorem C8_signup_swallows_session_error :
    signupHandler ⟨"change-me", true⟩ toyBcrypt env0 ⟨dbAliceTaken, []⟩ (post formBobby)
      = { db := { dbAliceTaken with
                   users := dbAliceTaken.users ++
                     [{ id := 2, username := "bobby", pass_hash := "$longenough",
                        created_at := 1000 }],
                   userSeq := 2 },
          log := [.bcryptGenerate "longenough",
                  .exec (.insertUser "bobby" "$longenough" 1000),
                  .exec (.insertSession (randHex env0.rnd 32) 2 605800),
                  .redirect "/" 302] } ∧
    (setSession (env0.clock 1) env0.rnd
        ⟨{ dbAliceTaken with
            users := dbAliceTaken.users ++
              [{ id := 2, username := "bobby", pass_hash := "$longenough",
                 created_at := 1000 }],
            userSeq := 2 }, []⟩ 2).2
      = some "UNIQUE constraint failed: sessions.token" ∧
    (newEvents ⟨dbAliceTaken, []⟩
      (signupHandler ⟨"change-me", true⟩ toyBcrypt env0 ⟨dbAliceTaken, []⟩
        (post formBobby))).any Event.setsSess = false := by
  decide

/-- The sibling path: on a login POST whose session row cannot be stored, no `sess`
cookie is set and the answer is a `500` carrying the error, not the redirect. -/
theorem loginHandler_reports_session_error (a : App) (bc : Bcrypt) (env : Env) (w : World)
    (r : Request) (row : UserRow) (srow : SessionRow)
    (hm : r.method = "POST") (h : w.db.selectUser (r.FormValue "username") = some row)
    (hc : bc.compare row.pass_hash (r.FormValue "password") = true)
    (htaken : w.db.selectSession (randHex env.rnd 32) = some srow) :
    (loginHandler a bc env w r).db = w.db ∧
    (newEvents w (loginHandler a bc env w r)).any Event.setsSess = false ∧
    (newEvents w (loginHandler a bc env w r)).getLast?
      = some (.httpError "UNIQUE constraint failed: sessions.token" 500) := by
  rw [loginHandler_collision a bc env w r row srow hm h hc htaken, newEvents_append]
  exact ⟨rfl, by simp [Event.setsSess], by simp⟩

/-! ## C9: when the hash verification runs -/

/-- C9 (as amended): on a login POST, `bcrypt.CompareHashAndPassword` is called exactly
when the submitted username is in the user table, and then once, on that row's stored
hash and the submitted password; for an absent username the handler renders the same
error page without calling it. -/
theorem C9_compare_iff_user_exists (a : App) (bc : Bcrypt) (env : Env) (w : World)
    (r : Request) (hm : r.method = "POST") :
    ((newEvents w (loginHandler a bc env w r)).any Event.isCompare
      = (w.db.selectUser (r.FormValue "username")).isSome) ∧
    (∀ row, w.db.selectUser (r.FormValue "username") = some row →
      (newEvents w (loginHandler a bc env w r)).filter Event.isCompare
        = [.bcryptCompare row.pass_hash (r.FormValue "password")]) ∧
    (w.db.selectUser (r.FormValue "username") = none →
      newEvents w (loginHandler a bc env w r)
        = [.query (.selectUser (r.FormValue "username")),
           .executeTemplate "login.html"
             [("Error", .str "用户名或密码错误"), ("Signup", .bool a.signup)]]) := by
  cases hsel : w.db.selectUser (r.FormValue "username") with
  | none =>
    rw [loginHandler_absent a bc env w r hm hsel, newEvents_append]
    simp [Event.isCompare]
  | some row =>
    cases hcmp : bc.compare row.pass_hash (r.FormValue "password") with
    | false =>
      rw [loginHandler_mismatch a bc env w r row hm hsel hcmp, newEvents_append]
      simp [Event.isCompare]
    | true =>
      cases hses : w.db.selectSession (randHex env.rnd 32) with
      | none =>
        rw [loginHandler_ok a bc env w r row hm hsel hcmp hses, newEvents_append]
        simp [Event.isCompare]
      | some srow =>
        rw [loginHandler_collision a bc env w r row srow hm hsel hcmp hses, newEvents_append]
        simp [Event.isCompare]

theorem C9_compare_iff_user_exists_witness :
    (newEvents ⟨dbAlice, []⟩ (loginHandler ⟨"change-me", false⟩ toyBcrypt env0 ⟨dbAlice, []⟩
        (post [("username", "alice"), ("password", "wrong")]))).any Event.isCompare
      = (dbAlice.selectUser "alice").isSome :=
  (C9_compare_iff_user_exists ⟨"change-me", false⟩ toyBcrypt env0 ⟨dbAlice, []⟩
    (post [("username", "alice"), ("password", "wrong")]) rfl).1

/-- C9 as stated fails: of two failed login POSTs on the same database, the one for the
absent username `mallory` never calls `bcrypt.CompareHashAndPassword`, and the one for
the present username `alice` with a wrong password calls it; both render the same page. -/
theorem C9_counterexample :
    dbAlice.selectUser "mallory" = none ∧
    (dbAlice.selectUser "alice").isSome = true ∧
    toyBcrypt.compare "$secretpw" "wrong" = false ∧
    (loginHandler ⟨"change-me", false⟩ toyBcrypt env0 ⟨dbAlice, []⟩
        (post [("username", "mallory"), ("password", "wrong")])).log
      = [.query (.selectUser "mallory"),
         .executeTemplate "login.html"
           [("Error", .str "用户名或密码错误"), ("Signup", .bool false)]] ∧
    (loginHandler ⟨"change-me", false⟩ toyBcrypt env0 ⟨dbAlice, []⟩
        (post [("username", "alice"), ("password", "wrong")])).log
      = [.query (.selectUser "alice"), .bcryptCompare "$secretpw" "wrong",
         .executeTemplate "login.html"
           [("Error", .str "用户名或密码错误"), ("Signup", .bool false)]] ∧
    (loginHandler ⟨"change-me", false⟩ toyBcrypt env0 ⟨dbAlice, []⟩
        (post [("username", "mallory"), ("password", "wrong")])).log.any Event.isCompare
      = false ∧
    (loginHandler ⟨"change-me", false⟩ toyBcrypt env0 ⟨dbAlice, []⟩
        (post [("username", "alice"), ("password", "wrong")])).log.any Event.isCompare
      = true := by
  decide

/-! ## C10: the polling window of a new watch -/

theorem storedWindow_pos (field : String) : 0 < storedWindow field := by
  unfold storedWindow
  by_cases h : (Atoi field).1 ≤ 0
  · simp [h]
  · simp only [h, if_false]; omega

theorem storedWindow_of_parsed (field : String) (n : Int) (h : Atoi field = (n, none))
    (hn : 0 < n) : storedWindow field = n := by
  unfold storedWindow
  simp only [h]
  rw [if_neg (by omega)]

theorem storedWindow_of_nonpos (field : String) (h : (Atoi field).1 ≤ 0) :
    storedWindow field = 2500 := by
  unfold storedWindow
  simp [h]

theorem parseUintLoop_ErrSyntax_value (n : Nat) (cs : List Char)
    (h : (parseUintLoop n cs).2 = some .ErrSyntax) : (parseUintLoop n cs).1 = 0 := by
  induction cs generalizing n with
  | nil => simp [parseUintLoop] at h
  | cons c cs ih =>
    simp only [parseUintLoop] at h ⊢
    split_ifs at h ⊢
    · simp at h
    · simp at h
    · exact ih _ h
    · rfl

theorem ParseInt_ErrSyntax_value (cs : List Char)
    (h : (ParseInt cs).2 = some .ErrSyntax) : (ParseInt cs).1 = 0 := by
  cases cs with
  | nil => rfl
  | cons c rest =>
    simp only [ParseInt] at h ⊢
    split_ifs at h ⊢ <;> first | rfl | (simp at h)

theorem Atoi_ErrSyntax_value (s : String) (h : (Atoi s).2 = some .ErrSyntax) :
    (Atoi s).1 = 0 := by
  unfold Atoi at h ⊢
  split_ifs at h ⊢ with hlen
  · revert h
    cases s.data with
    | nil => intro _; rfl
    | cons c rest =>
      dsimp only
      split_ifs <;>
        first
        | (intro _; rfl)
        | (generalize atoiFastLoop 0 _ = o
           cases o <;> intro h <;> first | rfl | (simp at h))
  · exact ParseInt_ErrSyntax_value _ h

theorem FormValue_missing (r : Request) (key : String) (h : ∀ kv ∈ r.form, kv.1 ≠ key) :
    r.FormValue key = "" := by
  unfold Request.FormValue
  have : r.form.find? (fun c => decide (c.1 = key)) = none := by
    rw [List.find?_eq_none]
    intro kv hkv
    simpa using h kv hkv
  rw [this]
  rfl

/-- The run of `addWatchHandler` that inserts. -/
theorem addWatchHandler_inserts (env : Env) (w : World) (r : Request)
    (hm : r.method = "POST") (hurl : TrimSpace (r.FormValue "url") ≠ "")
    (hmodel : TrimSpace (r.FormValue "model") ≠ "") :
    addWatchHandler env w r
      = { db := { w.db with
                   watches := w.db.watches ++ [watchRow w.db r],
                   watchSeq := nextId w.db.watchSeq (w.db.watches.map (fun x => x.id)) },
          log := w.log ++ [.exec (.insertWatch (TrimSpace (r.FormValue "url"))
              (TrimSpace (r.FormValue "model")) (TrimSpace (r.FormValue "count_regex"))
              (TrimSpace (r.FormValue "instock_regex")) (TrimSpace (r.FormValue "oos_regex"))
              (storedWindow (r.FormValue "window"))),
            .redirect "/" 302] } := by
  simp [addWatchHandler, hm, hurl, hmodel, World.Exec, DB.exec, World.emit, watchRow]

/-- The run of `addWatchHandler` on a blank url or model. -/
theorem addWatchHandler_blank (env : Env) (w : World) (r : Request)
    (hm : r.method = "POST")
    (hblank : TrimSpace (r.FormValue "url") = "" ∨ TrimSpace (r.FormValue "model") = "") :
    addWatchHandler env w r = { db := w.db, log := w.log ++ [.redirect "/" 302] } := by
  simp [addWatchHandler, hm, hblank, World.emit]

/-- The window of the row `addWatchHandler` inserts, for every POST whose url and model
are not blank after trimming: it is positive; it is the submitted window when
`strconv.Atoi` returns that as a positive value with no error; it is 2500 when the field
is missing or empty, when `strconv.Atoi` returns `ErrSyntax`, and when the value
`strconv.Atoi` returns is not positive.  When url or model is blank after trimming, the
database is unchanged and the only event is the redirect. -/
theorem addWatchHandler_window (env : Env) (w : World) (r : Request)
    (hm : r.method = "POST") :
    ((TrimSpace (r.FormValue "url") ≠ "" ∧ TrimSpace (r.FormValue "model") ≠ "") →
      (addWatchHandler env w r).db.watches = w.db.watches ++ [watchRow w.db r] ∧
      (watchRow w.db r).window = storedWindow (r.FormValue "window") ∧
      0 < (watchRow w.db r).window ∧
      (∀ n : Int, Atoi (r.FormValue "window") = (n, none) → 0 < n →
        (watchRow w.db r).window = n) ∧
      (((∀ kv ∈ r.form, kv.1 ≠ "window") ∨ r.FormValue "window" = "" ∨
          (Atoi (r.FormValue "window")).2 = some .ErrSyntax ∨
          (Atoi (r.FormValue "window")).1 ≤ 0) →
        (watchRow w.db r).window = 2500)) ∧
    ((TrimSpace (r.FormValue "url") = "" ∨ TrimSpace (r.FormValue "model") = "") →
      (addWatchHandler env w r).db = w.db ∧
      newEvents w (addWatchHandler env w r) = [.redirect "/" 302]) := by
  constructor
  · rintro ⟨hurl, hmodel⟩
    rw [addWatchHandler_inserts env w r hm hurl hmodel]
    refine ⟨rfl, rfl, storedWindow_pos _, ?_, ?_⟩
    · intro n hn hpos
      exact storedWindow_of_parsed _ n hn hpos
    · intro h
      apply storedWindow_of_nonpos
      rcases h with h | h | h | h
      · rw [FormValue_missing r "window" h]; decide
      · rw [h]; decide
      · rw [Atoi_ErrSyntax_value _ h]
      · exact h
  · intro hblank
    rw [addWatchHandler_blank env w r hm hblank, newEvents_append]
    exact ⟨rfl, rfl⟩

/-- The function `Atoi` and the stored window on sample fields. -/
theorem storedWindow_examples :
    storedWindow "5000" = 5000 ∧ storedWindow "+12" = 12 ∧ storedWindow "" = 2500 ∧
    storedWindow "abc" = 2500 ∧ storedWindow " 7" = 2500 ∧ storedWindow "1_000" = 2500 ∧
    storedWindow "0" = 2500 ∧ storedWindow "-3" = 2500 ∧
    storedWindow "9223372036854775807" = 9223372036854775807 ∧
    storedWindow "-99999999999999999999" = 2500 ∧
    Atoi "-9223372036854775808" = (-9223372036854775808, none) ∧
    Atoi "-9223372036854775809" = (-9223372036854775808, some .ErrRange) ∧
    Atoi "9223372036854775808x" = (0, some .ErrSyntax) ∧
    Atoi "x99999999999999999999" = (0, some .ErrSyntax) ∧
    Atoi "18446744073709551615" = (9223372036854775807, some .ErrRange) := by
  decide

/-- C10 at the failing inputs.  The window `99999999999999999999x` is not an integer:
`strconv.ParseUint` overflows at the twentieth digit and returns `ErrRange` before it
reads the `x`, `strconv.Atoi` returns the value `9223372036854775807` with that error,
the handler ignores the error, and the row is stored with window `9223372036854775807`
instead of the default 2500.  The window `9223372036854775808`, one more than the
largest `int`, is stored as `9223372036854775807` in the same way: neither the submitted
value nor 2500. -/
theorem C10_window_out_of_range :
    Atoi "99999999999999999999x" = (9223372036854775807, some .ErrRange) ∧
    ((addWatchHandler env0 ⟨DB.fresh, []⟩
        (post (watchForm "99999999999999999999x"))).db.watches.map (fun x => x.window))
      = [9223372036854775807] ∧
    Atoi "9223372036854775808" = (9223372036854775807, some .ErrRange) ∧
    ((addWatchHandler env0 ⟨DB.fresh, []⟩
        (post (watchForm "9223372036854775808"))).db.watches.map (fun x => x.window))
      = [9223372036854775807] ∧
    (addWatchHandler env0 ⟨DB.fresh, []⟩ (post (watchForm "99999999999999999999x"))).log
      = [.exec (.insertWatch "https://shop.example/item" "X1" "" "" ""
           9223372036854775807), .redirect "/" 302] ∧
    (9223372036854775807 : Int) ≠ 2500 ∧
    (9223372036854775807 : Int) ≠ 9223372036854775808 := by
  decide

/-! ## Supporting facts: decimal numerals and the `UNIQUE` constraint -/

/-- Every statement keeps the usernames of `users` unique. -/
theorem exec_preserves_unique (db db1 : DB) (s : Stmt) (id : Int)
    (h : db.UniqueUsernames) (hs : db.exec s = .ok (db1, id)) : db1.UniqueUsernames := by
  unfold DB.UniqueUsernames at h ⊢
  cases s with
  | insertUser u ph t =>
    simp only [DB.exec] at hs
    split at hs
    · cases hs
    · rename_i hnone
      simp only [Except.ok.injEq, Prod.mk.injEq] at hs
      rw [← hs.1]
      have hno : ∀ row ∈ db.users, row.username ≠ u := by
        apply (selectUser_eq_none_iff db u).mp
        cases hsel : db.selectUser u with
        | none => rfl
        | some row => simp [hsel] at hnone
      rw [List.pairwise_append]
      refine ⟨h, List.pairwise_singleton _ _, ?_⟩
      intro a ha b hb
      rw [List.mem_singleton] at hb
      rw [hb]
      exact hno a ha
  | insertSession tok uid exp =>
    simp only [DB.exec] at hs
    split at hs
    · cases hs
    · simp only [Except.ok.injEq, Prod.mk.injEq] at hs
      rw [← hs.1]; exact h
  | deleteSession tok =>
    simp only [DB.exec, Except.ok.injEq, Prod.mk.injEq] at hs
    rw [← hs.1]; exact h
  | insertWatch url model c i o win =>
    simp only [DB.exec, Except.ok.injEq, Prod.mk.injEq] at hs
    rw [← hs.1]; exact h

theorem fresh_unique : DB.fresh.UniqueUsernames := by
  unfold DB.UniqueUsernames
  exact List.Pairwise.nil

/-! ### `Atoi` on decimal numerals -/

theorem digitChar_isDigit (d : Nat) (hd : d < 10) :
    ('0' ≤ digitChar d ∧ digitChar d ≤ '9') ∧ (digitChar d).toNat - '0'.toNat = d ∧
    (digitChar d).utf8Size = 1 ∧ digitChar d ≠ '-' ∧ digitChar d ≠ '+' := by
  interval_cases d <;> decide

theorem utf8ByteSize_go_digits (ds : List Nat) (hds : ∀ d ∈ ds, d < 10) :
    String.utf8ByteSize.go (ds.map digitChar) = ds.length := by
  induction ds with
  | nil => rfl
  | cons d ds ih =>
    have hd := digitChar_isDigit d (hds d (List.mem_cons_self _ _))
    simp only [List.map_cons, String.utf8ByteSize.go, List.length_cons, hd.2.2.1]
    rw [ih (fun x hx => hds x (List.mem_cons_of_mem _ hx))]

theorem numeral_utf8ByteSize (ds : List Nat) (hds : ∀ d ∈ ds, d < 10) :
    (numeral ds).utf8ByteSize = ds.length :=
  utf8ByteSize_go_digits ds hds

theorem numeralValue_eq_foldl (ds : List Nat) :
    numeralValue ds = ds.foldl (fun a d => a * 10 + d) 0 := by
  unfold numeralValue
  rw [Nat.ofDigits_eq_foldr, List.foldr_reverse]
  congr 1
  funext a d
  simp [Nat.mul_comm, Nat.add_comm]

theorem foldl_digits_ge (ds : List Nat) (acc : Nat) :
    acc ≤ ds.foldl (fun a d => a * 10 + d) acc := by
  induction ds generalizing acc with
  | nil => exact Nat.le_refl _
  | cons d ds ih =>
    simp only [List.foldl_cons]
    exact Nat.le_trans (by omega) (ih (acc * 10 + d))

theorem foldl_digits_lt (ds : List Nat) (hds : ∀ d ∈ ds, d < 10) (acc : Nat) :
    ds.foldl (fun a d => a * 10 + d) acc < (acc + 1) * 10 ^ ds.length := by
  induction ds generalizing acc with
  | nil => simp
  | cons d ds ih =>
    have hd : d < 10 := hds d (List.mem_cons_self _ _)
    simp only [List.foldl_cons, List.length_cons]
    have h1 := ih (fun x hx => hds x (List.mem_cons_of_mem _ hx)) (acc * 10 + d)
    have h2 : (acc * 10 + d + 1) * 10 ^ ds.length ≤ ((acc + 1) * 10) * 10 ^ ds.length :=
      Nat.mul_le_mul_right _ (by omega)
    calc List.foldl (fun a d => a * 10 + d) (acc * 10 + d) ds
        < (acc * 10 + d + 1) * 10 ^ ds.length := h1
      _ ≤ ((acc + 1) * 10) * 10 ^ ds.length := h2
      _ = (acc + 1) * 10 ^ (ds.length + 1) := by rw [Nat.pow_succ]; ring

theorem atoiFastLoop_numeral (ds : List Nat) (hds : ∀ d ∈ ds, d < 10) (acc : Nat) :
    atoiFastLoop (acc : Int) (ds.map digitChar)
      = some ((ds.foldl (fun a d => a * 10 + d) acc : Nat) : Int) := by
  induction ds generalizing acc with
  | nil => rfl
  | cons d ds ih =>
    have hd := digitChar_isDigit d (hds d (List.mem_cons_self _ _))
    simp only [List.map_cons, atoiFastLoop, hd.1, and_self, if_true, hd.2.1, List.foldl_cons]
    have := ih (fun x hx => hds x (List.mem_cons_of_mem _ hx)) (acc * 10 + d)
    rw [← this]
    push_cast
    rfl

theorem parseUintLoop_numeral (ds : List Nat) (hds : ∀ d ∈ ds, d < 10) (n : Nat)
    (hn : n ≤ maxUint64) :
    parseUintLoop n (ds.map digitChar)
      = if ds.foldl (fun a d => a * 10 + d) n ≤ maxUint64
        then (ds.foldl (fun a d => a * 10 + d) n, none)
        else (maxUint64, some .ErrRange) := by
  induction ds generalizing n with
  | nil => simp [parseUintLoop, hn]
  | cons d ds ih =>
    have hd := digitChar_isDigit d (hds d (List.mem_cons_self _ _))
    have hlt : d < 10 := hds d (List.mem_cons_self _ _)
    have hge := foldl_digits_ge ds (n * 10 + d)
    simp only [List.map_cons, parseUintLoop, hd.1, and_self, if_true, hd.2.1, List.foldl_cons]
    unfold maxUint64 at hn ⊢
    by_cases hcut : (2 ^ 64 - 1) / 10 + 1 ≤ n
    · rw [if_pos hcut, if_neg (by omega)]
    · rw [if_neg hcut]
      have h10 : n * 10 % 2 ^ 64 = n * 10 := Nat.mod_eq_of_lt (by omega)
      rw [h10]
      by_cases hover : n * 10 + d < 2 ^ 64
      · have h1 : (n * 10 + d) % 2 ^ 64 = n * 10 + d := Nat.mod_eq_of_lt hover
        rw [h1, if_neg (by omega)]
        have := ih (fun x hx => hds x (List.mem_cons_of_mem _ hx)) (n * 10 + d)
          (by unfold maxUint64; omega)
        unfold maxUint64 at this
        exact this
      · have h1 : (n * 10 + d) % 2 ^ 64 < n * 10 := by omega
        rw [if_pos (Or.inl h1), if_neg (by omega)]

/-- The function `Atoi` on an unsigned decimal numeral: its value when that fits an
`int`, the largest `int` and `ErrRange` when it does not. -/
theorem Atoi_numeral (ds : List Nat) (hne : ds ≠ []) (hds : ∀ d ∈ ds, d < 10) :
    Atoi (numeral ds)
      = if numeralValue ds < 2 ^ 63 then ((numeralValue ds : Int), none)
        else ((2 : Int) ^ 63 - 1, some .ErrRange) := by
  cases ds with
  | nil => exact absurd rfl hne
  | cons d ds =>
    have hd := digitChar_isDigit d (hds d (List.mem_cons_self _ _))
    have hminus : digitChar d ≠ '-' := hd.2.2.2.1
    have hplus : digitChar d ≠ '+' := hd.2.2.2.2
    have hlen := numeral_utf8ByteSize (d :: ds) hds
    have hval := numeralValue_eq_foldl (d :: ds)
    unfold Atoi
    rw [hlen]
    by_cases hshort : (d :: ds).length < 19
    · have hbound := foldl_digits_lt (d :: ds) hds 0
      rw [← hval] at hbound
      have hpow : 10 ^ (d :: ds).length ≤ 10 ^ 18 :=
        Nat.pow_le_pow_right (by decide) (by omega)
      have hsmall : numeralValue (d :: ds) < 2 ^ 63 := by
        have : (10 : Nat) ^ 18 < 2 ^ 63 := by decide
        omega
      have hfast := atoiFastLoop_numeral (d :: ds) hds 0
      rw [← hval] at hfast
      simp only [List.map_cons, Nat.cast_zero] at hfast
      rw [if_pos ⟨by simp, hshort⟩, if_pos hsmall]
      simp [numeral, hminus, hplus, hfast]
    · have hslow := parseUintLoop_numeral (d :: ds) hds 0 (by unfold maxUint64; omega)
      rw [← hval] at hslow
      simp only [List.map_cons] at hslow
      rw [if_neg (fun h => hshort h.2)]
      have hPU : ParseUint (digitChar d :: List.map digitChar ds)
          = if numeralValue (d :: ds) ≤ maxUint64 then (numeralValue (d :: ds), none)
            else (maxUint64, some .ErrRange) := by
        simp [ParseUint, hslow]
      have hPI : ParseInt (digitChar d :: List.map digitChar ds)
          = if (2 : Nat) ^ 63 ≤ (ParseUint (digitChar d :: List.map digitChar ds)).1
            then ((2 : Int) ^ 63 - 1, some .ErrRange)
            else (wrapInt64 ((ParseUint (digitChar d :: List.map digitChar ds)).1 : Int),
                  none) := by
        have hns : (ParseUint (digitChar d :: List.map digitChar ds)).2
            ≠ some .ErrSyntax := by
          rw [hPU]; split_ifs <;> simp
        simp [ParseInt, hminus, hplus, hns]
      show ParseInt (digitChar d :: List.map digitChar ds) = _
      rw [hPI, hPU]
      unfold maxUint64 wrapInt64
      by_cases hfit : numeralValue (d :: ds) ≤ 2 ^ 64 - 1
      · rw [if_pos hfit]
        by_cases hlt : numeralValue (d :: ds) < 2 ^ 63
        · rw [if_pos hlt, if_neg (by simpa using hlt)]
          simp only [Prod.mk.injEq, and_true]
          omega
        · rw [if_neg hlt, if_pos (by simpa using hlt)]
      · have hnlt : ¬ numeralValue (d :: ds) < 2 ^ 63 := by omega
        rw [if_neg hfit, if_neg hnlt]
        simp

/-- The window stored for an unsigned decimal numeral: its value when that is positive
and fits an `int`, 2500 when it is zero, and the largest `int` when it does not fit. -/
theorem storedWindow_numeral (ds : List Nat) (hne : ds ≠ []) (hds : ∀ d ∈ ds, d < 10) :
    storedWindow (numeral ds)
      = if numeralValue ds = 0 then 2500
        else if numeralValue ds < 2 ^ 63 then (numeralValue ds : Int)
        else (2 : Int) ^ 63 - 1 := by
  unfold storedWindow
  rw [Atoi_numeral ds hne hds]
  split_ifs <;> simp only at * <;> omega

theorem storedWindow_numeral_example :
    numeral [9, 2, 2, 3, 3, 7, 2, 0, 3, 6, 8, 5, 4, 7, 7, 5, 8, 0, 8] = "9223372036854775808" ∧
    numeralValue [9, 2, 2, 3, 3, 7, 2, 0, 3, 6, 8, 5, 4, 7, 7, 5, 8, 0, 8] = 2 ^ 63 ∧
    storedWindow (numeral [9, 2, 2, 3, 3, 7, 2, 0, 3, 6, 8, 5, 4, 7, 7, 5, 8, 0, 8])
      = 2 ^ 63 - 1 :=
  ⟨by decide, by decide,
   by rw [storedWindow_numeral _ (by decide) (by decide)]; decide⟩

end StockMonitor
